import Mathlib

/-!
Shallow embedding of `crunchy_support_dump.py`, a sequential support-dump
collector that shells out to `oc`/`kubectl`, writes the captured output into a
working directory, and archives it.  The external world is modelled as an
oracle `Env` giving, for the `i`-th subprocess invocation of a command line,
its exit code and combined stdout+stderr text.  The observable program state
`St` records the mutable global `OPT` object, the subprocess trace, the logger
calls, the files and directories created, and the archives written.  Python
exceptions that the script does not catch (`KeyError`, `TypeError`) are
modelled with `Except`, carrying the state at the point of the crash.
-/

namespace CrunchySupportDump

/-- Characters stripped by Python `str.rstrip()` with no argument. -/
def isPySpace (c : Char) : Bool :=
  c == ' ' || c == '\t' || c == '\n' || c == '\r' || c == '\x0b' || c == '\x0c'

/-- Python `str.split(sep)` for a one-character separator, on character lists. -/
def splitCharList (sep : Char) : List Char → List (List Char)
  | [] => [[]]
  | c :: cs =>
    match splitCharList sep cs with
    | [] => [[]]
    | h :: t => if c == sep then [] :: h :: t else (c :: h) :: t

/-- Python `s.split(sep)` for a one-character separator. -/
def pySplit (s : String) (sep : Char) : List String :=
  (splitCharList sep s.data).map (fun l => (⟨l⟩ : String))

/-- Python `s.rstrip()`. -/
def pyRstrip (s : String) : String :=
  ⟨(s.data.reverse.dropWhile isPySpace).reverse⟩

/-- The sequence of chunks delivered by repeated `readline()` on a stream
holding `out`: every line keeps its trailing newline, and a final piece
without a newline is delivered only when non-empty. -/
def readLines (out : String) : List String :=
  match (splitCharList '\n' out.data).reverse with
  | [] => []
  | lastPart :: revInit =>
    (revInit.reverse.map (fun l => (⟨l ++ ['\n']⟩ : String))) ++
      (if lastPart.isEmpty then [] else [(⟨lastPart⟩ : String)])

/-- `posixpath.join` restricted to two components. -/
def pjoin (a b : String) : String :=
  if b.data.head? = some '/' then b
  else if a.data = [] ∨ a.data.getLast? = some '/' then a ++ b
  else a ++ "/" ++ b

/-- Exit code and combined stdout+stderr text of one subprocess invocation. -/
structure CmdResult where
  code : Nat
  out : String
deriving DecidableEq

/-- The external world: result of the `i`-th subprocess invocation, by command line. -/
abbrev Env := Nat → String → CmdResult

inductive LogLevel
  | debug
  | info
  | warning
  | error
deriving DecidableEq

structure LogEntry where
  level : LogLevel
  msg : String
deriving DecidableEq

/-- The global `OPT` object (Python class `Options`). -/
structure Options where
  output_dir : String
  «namespace» : String
  kube_cli : String
  dir_name : String
deriving DecidableEq

/-- Observable program state. -/
structure St where
  opt : Options
  counter : Nat
  trace : List String
  log : List LogEntry
  files : List (String × String)
  dirs : List String
  archives : List (String × String)
deriving DecidableEq

def logDebug (s : St) (m : String) : St :=
  { s with log := s.log ++ [⟨LogLevel.debug, m⟩] }

def logInfo (s : St) (m : String) : St :=
  { s with log := s.log ++ [⟨LogLevel.info, m⟩] }

def logWarning (s : St) (m : String) : St :=
  { s with log := s.log ++ [⟨LogLevel.warning, m⟩] }

def logError (s : St) (m : String) : St :=
  { s with log := s.log ++ [⟨LogLevel.error, m⟩] }

/-- Writing a file opened with mode `"wb"`: truncate if present, else create. -/
def setFile (files : List (String × String)) (path content : String) :
    List (String × String) :=
  if files.any (fun e => e.1 == path) then
    files.map (fun e => if e.1 == path then (e.1, content) else e)
  else files ++ [(path, content)]

/-- Writing to a file opened with mode `"ab+"`: append if present, else create. -/
def appendFile (files : List (String × String)) (path content : String) :
    List (String × String) :=
  if files.any (fun e => e.1 == path) then
    files.map (fun e => if e.1 == path then (e.1, e.2 ++ content) else e)
  else files ++ [(path, content)]

/-- `run_shell_command`: run `cmd`, returning `(exit code, output)`; on a
non-zero exit a warning naming the command and its output is logged when
`log_error` is set. -/
def run_shell_command (env : Env) (cmd : String) (log_error : Bool) (s : St) :
    (Nat × String) × St :=
  let r := env s.counter cmd
  let s1 := { s with counter := s.counter + 1, trace := s.trace ++ [cmd] }
  if r.code = 0 then ((0, r.out), s1)
  else if log_error then
    ((r.code, r.out),
      logWarning s1 ("Failed in shell command: " ++ cmd ++ ", output: " ++ r.out))
  else ((r.code, r.out), s1)

def get_namespace_argument (opt : Options) : String :=
  if opt.«namespace» ≠ "" then "-n " ++ opt.«namespace» else ""

/-- `collect_helper`: run `cmd`; on success write the output to `file_name`
under the output directory, on failure log a warning and write nothing. -/
def collect_helper (env : Env) (cmd file_name resource_name : String) (s : St) : St :=
  let p := run_shell_command env cmd true s
  let rc := p.1.1
  let out := p.1.2
  let s1 := p.2
  if rc ≠ 0 then logWarning s1 ("Error when running " ++ cmd ++ ": " ++ out)
  else
    logInfo { s1 with files := setFile s1.files (pjoin s1.opt.output_dir file_name) out }
      ("Collected " ++ resource_name)

def collect_kube_version (env : Env) (s : St) : St :=
  let cmd := s.opt.kube_cli ++ " version "
  collect_helper env cmd "version.info" "version-info"
    (logDebug s ("collecting kube version info: " ++ cmd))

def collect_node_info (env : Env) (s : St) : St :=
  let cmd := s.opt.kube_cli ++ " get nodes -o wide "
  collect_helper env cmd "nodes.info" "node-info"
    (logDebug s ("collecting node info: " ++ cmd))

def collect_namespace_info (env : Env) (s : St) : St :=
  let cmd :=
    if s.opt.kube_cli = "oc" then
      s.opt.kube_cli ++ " describe project " ++ s.opt.«namespace»
    else
      s.opt.kube_cli ++ " get namespace -o yaml " ++ s.opt.«namespace»
  collect_helper env cmd "namespace.info" "namespace-info"
    (logDebug s ("collecting namespace info: " ++ cmd))

def collect_pvc_list (env : Env) (s : St) : St :=
  collect_helper env (s.opt.kube_cli ++ " get pvc") "pvc.list" "pvc-list" s

def collect_configmap_list (env : Env) (s : St) : St :=
  collect_helper env (s.opt.kube_cli ++ " get configmap") "configmap.list" "configmap-list" s

def collect_events (env : Env) (s : St) : St :=
  collect_helper env (s.opt.kube_cli ++ " get events " ++ get_namespace_argument s.opt)
    "events" "k8s events" s

def API_RESOURCES : List String :=
  ["pods", "ReplicaSet", "Deployment", "Services", "Routes", "Ingress",
   "NetworkPolicies", "pvc", "configmap", "pgreplicas", "pgclusters",
   "pgpolicies", "pgtasks"]

def CONTAINER_COMMANDS : List (String × List String) :=
  [("collect", []),
   ("database", ["patronictl list", "patronictl history"]),
   ("pgbadger", []),
   ("all", ["ps aux --width 500", "df -h", "env"])]

/-- Python dict indexing `CONTAINER_COMMANDS[key]`: `none` models `KeyError`. -/
def containerCommandsLookup (key : String) : Option (List String) :=
  (CONTAINER_COMMANDS.find? (fun e => e.1 == key)).map (fun e => e.2)

def MAX_ARCHIVE_EMAIL_SIZE : Nat := 25 * 1024 * 1024

def podsCmd (opt : Options) : String :=
  opt.kube_cli ++ " get pod " ++ get_namespace_argument opt ++
    " -lvendor=crunchydata -o=custom-columns=NAME:.metadata.name --no-headers"

def pgPodsCmd (opt : Options) : String :=
  opt.kube_cli ++ " get pod " ++ get_namespace_argument opt ++
    " -lpgo-pg-database=true,vendor=crunchydata         -o=custom-columns=NAME:.metadata.name --no-headers"

def containersCmd (opt : Options) (pod_name : String) : String :=
  opt.kube_cli ++ " get pods " ++ get_namespace_argument opt ++ " " ++ pod_name ++
    " --no-headers -o=custom-columns=CONTAINERS:.spec.containers[*].name"

def kubeGetCmd (opt : Options) (resource_type : String) : String :=
  opt.kube_cli ++ " get " ++ resource_type ++ " " ++ get_namespace_argument opt ++ " -o yaml"

def podLogCmd (opt : Options) (pod container : String) : String :=
  opt.kube_cli ++ " logs " ++ get_namespace_argument opt ++ " " ++ pod ++ " -c " ++ container

def execCmd (opt : Options) (container pod command : String) : String :=
  opt.kube_cli ++ " exec -it " ++ get_namespace_argument opt ++ " -c " ++ container ++
    " " ++ pod ++ " -- /bin/bash -c \x27" ++ command ++ "\x27"

def pgLogListCmd (opt : Options) (pod : String) : String :=
  opt.kube_cli ++ " exec -it " ++ get_namespace_argument opt ++ " -c database " ++ pod ++
    " -- /bin/bash -c \x27ls -d /pgdata/*/pg_log/* | head -2\x27"

def pgCpCmd (opt : Options) (pod line tgt_file : String) : String :=
  opt.kube_cli ++ " cp -c database " ++ get_namespace_argument opt ++ " " ++ pod ++ ":" ++
    line ++ " " ++ tgt_file

/-- `get_pods`: newline-split pod names with the final piece dropped;
`none` models the Python `None` returned on failure. -/
def get_pods (env : Env) (s : St) : Option (List String) × St :=
  let p := run_shell_command env (podsCmd s.opt) true s
  if p.1.1 = 0 then (some ((pySplit p.1.2 '\n').dropLast), p.2)
  else (none, logWarning p.2 ("Failed to get pods: " ++ p.1.2))

def get_pg_pods (env : Env) (s : St) : Option (List String) × St :=
  let p := run_shell_command env (pgPodsCmd s.opt) true s
  if p.1.1 = 0 then (some ((pySplit p.1.2 '\n').dropLast), p.2)
  else (none, logWarning p.2 ("Failed to get pods: " ++ p.1.2))

/-- `get_containers`: comma-split container names, no stripping. -/
def get_containers (env : Env) (pod_name : String) (s : St) : Option (List String) × St :=
  let p := run_shell_command env (containersCmd s.opt pod_name) true s
  if p.1.1 = 0 then (some (pySplit p.1.2 ','), p.2)
  else (none, logWarning p.2 ("Failed to get pods: " ++ p.1.2))

def run_kube_get (env : Env) (resource_type : String) (s : St) : Option String × St :=
  let p := run_shell_command env (kubeGetCmd s.opt resource_type) true s
  if p.1.1 = 0 then (some p.1.2, p.2)
  else (none, logWarning p.2 ("Failed to get " ++ resource_type ++ " resource: " ++ p.1.2))

/-- Loop body of `collect_api_resources`: skip `Routes` under `kubectl`;
otherwise run `run_kube_get` and, when it returns truthy output, run it a
second time and record the second result. -/
def api_step (env : Env) (acc : List (String × Option String)) (s : St)
    (resource : String) : List (String × Option String) × St :=
  if s.opt.kube_cli = "kubectl" ∧ resource = "Routes" then (acc, s)
  else
    let p := run_kube_get env resource s
    match p.1 with
    | some o =>
      if o ≠ "" then
        let q := run_kube_get env resource p.2
        (acc ++ [(resource, q.1)], logInfo q.2 ("  + " ++ resource))
      else (acc, p.2)
    | none => (acc, p.2)

def api_loop (env : Env) (rs : List String) (acc : List (String × Option String))
    (s : St) : List (String × Option String) × St :=
  match rs with
  | [] => (acc, s)
  | r :: rest =>
    let p := api_step env acc s r
    api_loop env rest p.1 p.2

/-- Second phase of `collect_api_resources`: write each recorded entry to the
file named after its resource.  A `none` value reproduces the `TypeError`
raised by `file_pointer.write(None)`. -/
def write_resources (entries : List (String × Option String)) (s : St) :
    Except (String × St) St :=
  match entries with
  | [] => .ok s
  | (entry, some out) :: rest =>
    write_resources rest
      { s with files := setFile s.files (pjoin s.opt.output_dir entry) out }
  | (_, none) :: _ =>
    .error ("TypeError: a bytes-like object is required, not NoneType", s)

def collect_api_resources (env : Env) (s : St) : Except (String × St) St :=
  let s0 := logInfo s "Collecting API resources:"
  let p := api_loop env API_RESOURCES [] s0
  write_resources p.1 p.2

/-- One `(pod, container)` iteration of `collect_pods_logs`: the log file is
created unconditionally and receives the whole captured stream; the exit code
of the `logs` command is never inspected and no warning is logged. -/
def collect_one_pod_log (env : Env) (logs_dir pod cont : String) (s : St) : St :=
  let container := pyRstrip cont
  let cmd := podLogCmd s.opt pod container
  let r := env s.counter cmd
  let s1 := { s with counter := s.counter + 1, trace := s.trace ++ [cmd] }
  let s2 := { s1 with
    files := setFile s1.files (logs_dir ++ "/" ++ pod ++ "_" ++ container ++ ".log") r.out }
  logInfo s2 ("  + pod:" ++ pod ++ ", container:" ++ container)

def pods_logs_loop (env : Env) (logs_dir : String) (pods : List String) (s : St) :
    Except (String × St) St :=
  match pods with
  | [] => .ok s
  | pod :: rest =>
    let p := get_containers env pod s
    match p.1 with
    | none => .error ("TypeError: \x27NoneType\x27 object is not iterable", p.2)
    | some conts =>
      pods_logs_loop env logs_dir rest
        (conts.foldl (fun s c => collect_one_pod_log env logs_dir pod c s) p.2)

def collect_pods_logs (env : Env) (s : St) : Except (String × St) St :=
  let s0 := logInfo s "Collecting pod logs:"
  let logs_dir := pjoin s0.opt.output_dir "pod_logs"
  let s1 := { s0 with dirs := s0.dirs ++ [logs_dir] }
  let p := get_pods env s1
  match p.1 with
  | none => .ok (logWarning p.2 "Could not get pods list - skipping pods logs collection")
  | some pods =>
    if pods.isEmpty then
      .ok (logWarning p.2 "Could not get pods list - skipping pods logs collection")
    else pods_logs_loop env logs_dir pods p.2

/-- One `exec` diagnostic command appended to an already-open detail file. -/
def run_one_exec (env : Env) (path cmd : String) (s : St) : St :=
  let r := env s.counter cmd
  { s with
    counter := s.counter + 1
    trace := s.trace ++ [cmd]
    files := appendFile s.files path r.out }

/-- One container iteration of `collect_pg_pod_details`: the detail file is
created by the `"ab+"` open; the command list
`CONTAINER_COMMANDS[\x27all\x27] + CONTAINER_COMMANDS[container]` is then
evaluated, raising `KeyError` for a container name that is not a key. -/
def pg_detail_container (env : Env) (logs_dir pod cont : String) (s : St) :
    Except (String × St) St :=
  let container := pyRstrip cont
  let path := logs_dir ++ "/" ++ pod ++ "_" ++ container ++ ".log"
  let s1 := { s with files := appendFile s.files path "" }
  match containerCommandsLookup "all", containerCommandsLookup container with
  | some base, some extra =>
    .ok ((base ++ extra).foldl
      (fun s c => run_one_exec env path (execCmd s.opt container pod c) s) s1)
  | _, _ => .error ("KeyError: " ++ container, s1)

def pg_details_containers_loop (env : Env) (logs_dir pod : String)
    (conts : List String) (s : St) : Except (String × St) St :=
  match conts with
  | [] => .ok s
  | c :: rest =>
    match pg_detail_container env logs_dir pod c s with
    | .error e => .error e
    | .ok s1 =>
      pg_details_containers_loop env logs_dir pod rest
        (logInfo s1 ("  + pod:" ++ pod ++ ", container:" ++ pyRstrip c))

def pg_details_pods_loop (env : Env) (logs_dir : String) (pods : List String)
    (s : St) : Except (String × St) St :=
  match pods with
  | [] => .ok s
  | pod :: rest =>
    let p := get_containers env pod s
    match p.1 with
    | none => .error ("TypeError: \x27NoneType\x27 object is not iterable", p.2)
    | some conts =>
      match pg_details_containers_loop env logs_dir pod conts p.2 with
      | .error e => .error e
      | .ok s1 => pg_details_pods_loop env logs_dir rest s1

def collect_pg_pod_details (env : Env) (s : St) : Except (String × St) St :=
  let s0 := logInfo s "Collecting PG pod details:"
  let logs_dir := pjoin s0.opt.output_dir "pg_pod_details"
  let s1 := { s0 with dirs := s0.dirs ++ [logs_dir] }
  let p := get_pg_pods env s1
  match p.1 with
  | none =>
    .ok (logWarning p.2 "Could not get pods list - skipping PG pod details collection")
  | some pods =>
    if pods.isEmpty then
      .ok (logWarning p.2 "Could not get pods list - skipping PG pod details collection")
    else pg_details_pods_loop env logs_dir pods p.2

/-- One pod iteration of `collect_pg_logs`: list the last two PG log paths
inside the database container, then `cp` each listed path out. -/
def pg_logs_pod (env : Env) (logs_dir : String) (s : St) (pod : String) : St :=
  let tgt_file := logs_dir ++ "/" ++ pod
  let s1 := { s with dirs := s.dirs ++ [tgt_file] }
  let cmd := pgLogListCmd s1.opt pod
  let r := env s1.counter cmd
  let s2 := { s1 with counter := s1.counter + 1, trace := s1.trace ++ [cmd] }
  let s3 := (readLines r.out).foldl
    (fun s line =>
      let c := pgCpCmd s.opt pod (pyRstrip line) tgt_file
      { s with counter := s.counter + 1, trace := s.trace ++ [c] }) s2
  logInfo s3 ("  + pod:" ++ pod)

def collect_pg_logs (env : Env) (s : St) : St :=
  let s0 := logInfo s "Collecting last 2 PG logs (This could take a while)"
  let logs_dir := pjoin s0.opt.output_dir "pg_logs"
  let s1 := { s0 with dirs := s0.dirs ++ [logs_dir] }
  let p := get_pg_pods env s1
  match p.1 with
  | none => logWarning p.2 "Could not get pods list - skipping pods logs collection"
  | some pods =>
    if pods.isEmpty then
      logWarning p.2 "Could not get pods list - skipping pods logs collection"
    else pods.foldl (pg_logs_pod env logs_dir) p.2

/-- `archive_files`: write the tarball, then report its size.  `statSize` is
the result of `os.stat`, `none` modelling a raised `OSError`. -/
def archive_files (statSize : Option Nat) (s : St) : St :=
  let file_name := s.opt.output_dir ++ ".tar.gz"
  let s1 := logInfo { s with archives := s.archives ++ [(file_name, s.opt.dir_name)] }
    ("Archive file : " ++ file_name ++ " ")
  match statSize with
  | none => logWarning s1 "Archive file size: NA"
  | some n =>
    let s2 := logInfo s1
      "------------------------------------------------------------------------"
    let s3 :=
      if n > MAX_ARCHIVE_EMAIL_SIZE then
        logInfo
          (logInfo s2 ("Archive file (" ++ toString n ++ " bytes) may be too big to email."))
          "Please request file share link by emailing support@crunchydata.com"
      else
        logInfo (logInfo s2 ("Archive file size (bytes): " ++ toString n ++ " "))
          "Email the support dump to support@crunchydata.com"
    logInfo s3 "------------------------------------------------------------------------"

/-- The reassignment of `OPT.output_dir` performed at the top of `run()`. -/
def runPrologueOpt (scriptAbs : String) (opt : Options) : Options :=
  if opt.output_dir ≠ "" then
    { opt with output_dir := pjoin opt.output_dir opt.dir_name }
  else
    { opt with output_dir := pjoin scriptAbs opt.dir_name }

/-- Final stage of `run()`: PG pod details, then the archive step. -/
def runStageDetails (env : Env) (statSize : Option Nat) (s10 : St) :
    Except (String × St) St :=
  match collect_pg_pod_details env s10 with
  | .error e => .error e
  | .ok s11 => .ok (archive_files statSize s11)

/-- Stage of `run()` from `collect_pods_logs` on. -/
def runStagePodLogs (env : Env) (statSize : Option Nat) (s9 : St) :
    Except (String × St) St :=
  match collect_pods_logs env s9 with
  | .error e => .error e
  | .ok s10 => runStageDetails env statSize s10

/-- Stage of `run()` from `collect_api_resources` on. -/
def runStageApi (env : Env) (statSize : Option Nat) (s7 : St) :
    Except (String × St) St :=
  match collect_api_resources env s7 with
  | .error e => .error e
  | .ok s8 => runStagePodLogs env statSize (collect_pg_logs env s8)

/-- The working-directory creation and the first six collectors of `run()`,
in source order, feeding the remaining stages. -/
def runStartSt (scriptAbs : String) (s : St) : St :=
  let s0 := { s with opt := runPrologueOpt scriptAbs s.opt }
  logInfo { s0 with dirs := s0.dirs ++ [s0.opt.output_dir] }
    ("Saving support dump files in " ++ s0.opt.output_dir)

/-- `run()`: mutate `OPT.output_dir`, create the working directory, run every
collector in order, then archive. -/
def runBody (env : Env) (statSize : Option Nat) (scriptAbs : String) (s : St) :
    Except (String × St) St :=
  runStageApi env statSize
    (collect_configmap_list env (collect_pvc_list env (collect_events env
      (collect_namespace_info env (collect_node_info env
        (collect_kube_version env (runStartSt scriptAbs s)))))))

/-- `get_kube_cli`: probe for `oc`, then `kubectl`; `none` models the
`sys.exit()` path taken when neither is found. -/
def get_kube_cli (env : Env) (s : St) : Option String × St :=
  let p := run_shell_command env "which oc" false s
  if p.1.1 = 0 then (some "oc", p.2)
  else
    let q := run_shell_command env "which kubectl" false p.2
    if q.1.1 = 0 then (some "kubectl", q.2)
    else (none, logError q.2 "kubernetes CLI not found")

def check_kube_access (env : Env) (s : St) : Nat × St :=
  let cmd := if s.opt.kube_cli = "oc" then "oc whoami" else "kubectl cluster-info"
  let p := run_shell_command env cmd true s
  (p.1.1, p.2)

/-- Result of a whole process run.  `sys.exit()` is called with no argument in
the script, so the `exited` constructor records the resulting status `0`. -/
inductive RunOutcome
  | exited (code : Nat) (s : St)
  | completed (s : St)
  | crashed (msg : String) (s : St)
deriving DecidableEq

def RunOutcome.st : RunOutcome → St
  | .exited _ s => s
  | .completed s => s
  | .crashed _ s => s

def RunOutcome.exitCode? : RunOutcome → Option Nat
  | .exited c _ => some c
  | .completed _ => none
  | .crashed _ _ => none

def bannerLog : List LogEntry :=
  [⟨LogLevel.info,
    "------------------------------------------------------------------------------"⟩,
   ⟨LogLevel.info, "Crunchy support dump collector"⟩,
   ⟨LogLevel.info, "NOTE: We gather metadata and pod logs only. (No data and k8s secrets)"⟩,
   ⟨LogLevel.info,
    "------------------------------------------------------------------------------"⟩]

/-- State at interpreter startup: `OPT = Options("", "", "kubectl")` with the
timestamp-derived `dir_name`, and the `__main__` banner already logged. -/
def startSt (dir_name : String) : St :=
  { opt := ⟨"", "", "kubectl", dir_name⟩, counter := 0, trace := [],
    log := bannerLog, files := [], dirs := [], archives := [] }

/-- State after `OPT.namespace = results.namespace` in `__main__`. -/
def mainStartSt (dir_name ns_arg : String) : St :=
  let s0 := startSt dir_name
  { s0 with opt := { s0.opt with «namespace» := ns_arg } }

/-- Tail of `__main__` after CLI resolution and the `OPT` assignments: probe
cluster access (exiting on a non-zero probe), then call `run()`. -/
def mainAfterCli (env : Env) (statSize : Option Nat) (scriptAbs : String)
    (s2 : St) : RunOutcome :=
  let q := check_kube_access env s2
  if q.1 ≠ 0 then .exited 0 (logError q.2 "Not connected to kubernetes cluster")
  else
    match runBody env statSize scriptAbs q.2 with
    | .ok sF => .completed sF
    | .error e => .crashed e.1 e.2

/-- The `__main__` block: set `OPT.namespace`, resolve the CLI (exiting when
none is found), set `OPT.kube_cli` and `OPT.output_dir`, then probe cluster
access and run. -/
def mainProgram (env : Env) (statSize : Option Nat)
    (scriptAbs dir_name ns_arg output_dir_arg : String) : RunOutcome :=
  let p := get_kube_cli env (mainStartSt dir_name ns_arg)
  match p.1 with
  | none => .exited 0 p.2
  | some cli =>
    mainAfterCli env statSize scriptAbs
      { p.2 with opt := { p.2.opt with kube_cli := cli, output_dir := output_dir_arg } }

/-- Total projection out of a collector result: the state carried by either
constructor. -/
def stOfRun : Except (String × St) St → St
  | .ok s => s
  | .error e => e.2

def isOkRun : Except (String × St) St → Bool
  | .ok _ => true
  | .error _ => false

/-- Newline-terminated name list, the canonical shape of `--no-headers`
single-column CLI output: every name followed by one newline. -/
def joinLines (names : List String) : String :=
  names.foldr (fun n acc => n ++ "\n" ++ acc) ""

/-- Comma-separated name list, the canonical shape of the
`.spec.containers[*].name` custom-columns output (before its trailing
newline). -/
def joinCommas : List String → String
  | [] => ""
  | [n] => n
  | n :: rest => n ++ "," ++ joinCommas rest

/-! ### Lemmas about the string helpers -/

lemma string_append_left_cancel {a b c : String} (h : a ++ b = a ++ c) : b = c := by
  have hd := congrArg String.data h
  simp only [String.data_append] at hd
  exact String.ext (List.append_cancel_left hd)

lemma splitCharList_cons (sep c : Char) (cs : List Char) :
    splitCharList sep (c :: cs) =
      match splitCharList sep cs with
      | [] => [[]]
      | h :: t => if c == sep then [] :: h :: t else (c :: h) :: t := rfl

lemma splitCharList_ne_nil (sep : Char) : ∀ l : List Char, splitCharList sep l ≠ [] := by
  intro l
  cases l with
  | nil => simp [splitCharList]
  | cons c cs =>
    rw [splitCharList_cons]
    cases hs : splitCharList sep cs with
    | nil => simp
    | cons h t =>
      by_cases hb : (c == sep) = true
      · simp [hb]
      · simp [hb]

lemma splitCharList_append_sep (sep : Char) (l1 l2 : List Char) (h : sep ∉ l1) :
    splitCharList sep (l1 ++ sep :: l2) = l1 :: splitCharList sep l2 := by
  induction l1 with
  | nil =>
    simp only [List.nil_append]
    rw [splitCharList_cons]
    cases hs : splitCharList sep l2 with
    | nil => exact absurd hs (splitCharList_ne_nil sep l2)
    | cons hh tt => simp
  | cons c cs ih =>
    have hc : ¬ (c == sep) = true := by
      simp only [beq_iff_eq]
      intro hcc
      exact h (hcc ▸ List.mem_cons_self c cs)
    have hrest : sep ∉ cs := fun hm => h (List.mem_cons_of_mem c hm)
    simp only [List.cons_append]
    rw [splitCharList_cons, ih hrest]
    simp [hc]

lemma splitCharList_no_sep (sep : Char) (l : List Char) (h : sep ∉ l) :
    splitCharList sep l = [l] := by
  induction l with
  | nil => rfl
  | cons c cs ih =>
    have hc : ¬ (c == sep) = true := by
      simp only [beq_iff_eq]
      intro hcc
      exact h (hcc ▸ List.mem_cons_self c cs)
    have hrest : sep ∉ cs := fun hm => h (List.mem_cons_of_mem c hm)
    rw [splitCharList_cons, ih hrest]
    simp [hc]

lemma pySplit_joinLines (names : List String) (h : ∀ n ∈ names, '\n' ∉ n.data) :
    pySplit (joinLines names) '\n' = names ++ [""] := by
  induction names with
  | nil => rfl
  | cons n rest ih =>
    have hdata : (joinLines (n :: rest)).data =
        n.data ++ '\n' :: (joinLines rest).data := by
      show (n ++ "\n" ++ joinLines rest).data = _
      simp [String.data_append]
    unfold pySplit
    rw [hdata, splitCharList_append_sep '\n' n.data _ (h n (List.mem_cons_self n rest))]
    have ihh := ih (fun m hm => h m (List.mem_cons_of_mem n hm))
    unfold pySplit at ihh
    simp only [List.map_cons, ihh, List.cons_append]

lemma pyRstrip_append_newline (s : String) : pyRstrip (s ++ "\n") = pyRstrip s := by
  unfold pyRstrip
  have : (s ++ "\n").data.reverse = '\n' :: s.data.reverse := by
    simp [String.data_append]
  rw [this]
  rw [List.dropWhile_cons]
  simp [isPySpace]

lemma pySplit_joinCommas_newline (names : List String) (h0 : names ≠ [])
    (hc : ∀ n ∈ names, ',' ∉ n.data) (hr : ∀ n ∈ names, pyRstrip n = n) :
    (pySplit (joinCommas names ++ "\n") ',').map pyRstrip = names := by
  induction names with
  | nil => exact absurd rfl h0
  | cons n rest ih =>
    cases rest with
    | nil =>
      have hno : ',' ∉ (n ++ "\n").data := by
        simp only [String.data_append]
        intro hm
        rcases List.mem_append.mp hm with hm1 | hm2
        · exact hc n (List.mem_cons_self n []) hm1
        · simp at hm2
      show ((splitCharList ',' ((joinCommas [n] ++ "\n")).data).map
        (fun l => (⟨l⟩ : String))).map pyRstrip = [n]
      have : (joinCommas [n] ++ "\n").data = (n ++ "\n").data := rfl
      rw [this, splitCharList_no_sep ',' _ hno]
      simp only [List.map_cons, List.map_nil]
      have : pyRstrip (⟨(n ++ "\n").data⟩ : String) = n := by
        have he : ((⟨(n ++ "\n").data⟩ : String)) = n ++ "\n" := rfl
        rw [he, pyRstrip_append_newline]
        exact hr n (List.mem_cons_self n [])
      rw [this]
    | cons m rest2 =>
      have hdata : (joinCommas (n :: m :: rest2) ++ "\n").data =
          n.data ++ ',' :: (joinCommas (m :: rest2) ++ "\n").data := by
        show ((n ++ "," ++ joinCommas (m :: rest2)) ++ "\n").data = _
        simp [String.data_append]
      unfold pySplit
      rw [hdata, splitCharList_append_sep ',' n.data _ (hc n (List.mem_cons_self n _))]
      have ihh := ih (by simp)
        (fun x hx => hc x (List.mem_cons_of_mem n hx))
        (fun x hx => hr x (List.mem_cons_of_mem n hx))
      unfold pySplit at ihh
      simp only [List.map_cons, ihh]
      have : pyRstrip (⟨n.data⟩ : String) = n := hr n (List.mem_cons_self n _)
      rw [this]

/-! ### Lemmas about the primitive state operations -/

@[simp] lemma run_shell_command_code (env : Env) (cmd : String) (b : Bool) (s : St) :
    (run_shell_command env cmd b s).1.1 = (env s.counter cmd).code := by
  simp only [run_shell_command]
  split
  · next h => exact h.symm
  · split <;> rfl

@[simp] lemma run_shell_command_out (env : Env) (cmd : String) (b : Bool) (s : St) :
    (run_shell_command env cmd b s).1.2 = (env s.counter cmd).out := by
  simp only [run_shell_command]
  split
  · rfl
  · split <;> rfl

@[simp] lemma run_shell_command_opt (env : Env) (cmd : String) (b : Bool) (s : St) :
    (run_shell_command env cmd b s).2.opt = s.opt := by
  simp only [run_shell_command]
  split
  · rfl
  · split <;> rfl

@[simp] lemma run_shell_command_counter (env : Env) (cmd : String) (b : Bool) (s : St) :
    (run_shell_command env cmd b s).2.counter = s.counter + 1 := by
  simp only [run_shell_command]
  split
  · rfl
  · split <;> rfl

@[simp] lemma run_shell_command_trace (env : Env) (cmd : String) (b : Bool) (s : St) :
    (run_shell_command env cmd b s).2.trace = s.trace ++ [cmd] := by
  simp only [run_shell_command]
  split
  · rfl
  · split <;> rfl

@[simp] lemma run_shell_command_files (env : Env) (cmd : String) (b : Bool) (s : St) :
    (run_shell_command env cmd b s).2.files = s.files := by
  simp only [run_shell_command]
  split
  · rfl
  · split <;> rfl

@[simp] lemma run_shell_command_dirs (env : Env) (cmd : String) (b : Bool) (s : St) :
    (run_shell_command env cmd b s).2.dirs = s.dirs := by
  simp only [run_shell_command]
  split
  · rfl
  · split <;> rfl

@[simp] lemma run_shell_command_archives (env : Env) (cmd : String) (b : Bool) (s : St) :
    (run_shell_command env cmd b s).2.archives = s.archives := by
  simp only [run_shell_command]
  split
  · rfl
  · split <;> rfl

lemma run_shell_command_log_ok (env : Env) (cmd : String) (b : Bool) (s : St)
    (h : (env s.counter cmd).code = 0) :
    (run_shell_command env cmd b s).2.log = s.log := by
  simp only [run_shell_command]
  rw [if_pos h]

lemma run_shell_command_log_err (env : Env) (cmd : String) (s : St)
    (h : (env s.counter cmd).code ≠ 0) :
    (run_shell_command env cmd true s).2.log = s.log ++
      [⟨LogLevel.warning,
        "Failed in shell command: " ++ cmd ++ ", output: " ++ (env s.counter cmd).out⟩] := by
  simp only [run_shell_command]
  rw [if_neg h]
  simp [logWarning]

lemma run_shell_command_log_silent (env : Env) (cmd : String) (s : St) :
    (run_shell_command env cmd false s).2.log = s.log := by
  simp only [run_shell_command]
  split
  · rfl
  · rfl

/-! ### Discovery operation characterizations -/

lemma get_pods_ok (env : Env) (s : St)
    (h : (env s.counter (podsCmd s.opt)).code = 0) :
    get_pods env s =
      (some ((pySplit (env s.counter (podsCmd s.opt)).out '\n').dropLast),
       { s with counter := s.counter + 1, trace := s.trace ++ [podsCmd s.opt] }) := by
  simp only [get_pods, run_shell_command]
  rw [if_pos h]
  simp [h]

lemma get_pods_fail (env : Env) (s : St)
    (h : (env s.counter (podsCmd s.opt)).code ≠ 0) :
    get_pods env s =
      (none,
       { s with
         counter := s.counter + 1
         trace := s.trace ++ [podsCmd s.opt]
         log := s.log ++
           [⟨LogLevel.warning, "Failed in shell command: " ++ podsCmd s.opt ++
              ", output: " ++ (env s.counter (podsCmd s.opt)).out⟩,
            ⟨LogLevel.warning,
              "Failed to get pods: " ++ (env s.counter (podsCmd s.opt)).out⟩] }) := by
  simp only [get_pods, run_shell_command]
  rw [if_neg h]
  simp [h, logWarning]

lemma get_pg_pods_ok (env : Env) (s : St)
    (h : (env s.counter (pgPodsCmd s.opt)).code = 0) :
    get_pg_pods env s =
      (some ((pySplit (env s.counter (pgPodsCmd s.opt)).out '\n').dropLast),
       { s with counter := s.counter + 1, trace := s.trace ++ [pgPodsCmd s.opt] }) := by
  simp only [get_pg_pods, run_shell_command]
  rw [if_pos h]
  simp [h]

lemma get_pg_pods_fail (env : Env) (s : St)
    (h : (env s.counter (pgPodsCmd s.opt)).code ≠ 0) :
    get_pg_pods env s =
      (none,
       { s with
         counter := s.counter + 1
         trace := s.trace ++ [pgPodsCmd s.opt]
         log := s.log ++
           [⟨LogLevel.warning, "Failed in shell command: " ++ pgPodsCmd s.opt ++
              ", output: " ++ (env s.counter (pgPodsCmd s.opt)).out⟩,
            ⟨LogLevel.warning,
              "Failed to get pods: " ++ (env s.counter (pgPodsCmd s.opt)).out⟩] }) := by
  simp only [get_pg_pods, run_shell_command]
  rw [if_neg h]
  simp [h, logWarning]

lemma get_containers_ok (env : Env) (pod : String) (s : St)
    (h : (env s.counter (containersCmd s.opt pod)).code = 0) :
    get_containers env pod s =
      (some (pySplit (env s.counter (containersCmd s.opt pod)).out ','),
       { s with counter := s.counter + 1, trace := s.trace ++ [containersCmd s.opt pod] }) := by
  simp only [get_containers, run_shell_command]
  rw [if_pos h]
  simp [h]

lemma get_containers_fail (env : Env) (pod : String) (s : St)
    (h : (env s.counter (containersCmd s.opt pod)).code ≠ 0) :
    (get_containers env pod s).1 = none := by
  simp only [get_containers, run_shell_command]
  rw [if_neg h]
  simp [h]

lemma run_kube_get_ok (env : Env) (r : String) (s : St)
    (h : (env s.counter (kubeGetCmd s.opt r)).code = 0) :
    run_kube_get env r s =
      (some (env s.counter (kubeGetCmd s.opt r)).out,
       { s with counter := s.counter + 1, trace := s.trace ++ [kubeGetCmd s.opt r] }) := by
  simp only [run_kube_get, run_shell_command]
  rw [if_pos h]
  simp [h]

lemma run_kube_get_fail (env : Env) (r : String) (s : St)
    (h : (env s.counter (kubeGetCmd s.opt r)).code ≠ 0) :
    run_kube_get env r s =
      (none,
       { s with
         counter := s.counter + 1
         trace := s.trace ++ [kubeGetCmd s.opt r]
         log := s.log ++
           [⟨LogLevel.warning, "Failed in shell command: " ++ kubeGetCmd s.opt r ++
              ", output: " ++ (env s.counter (kubeGetCmd s.opt r)).out⟩,
            ⟨LogLevel.warning, "Failed to get " ++ r ++ " resource: " ++
              (env s.counter (kubeGetCmd s.opt r)).out⟩] }) := by
  simp only [run_kube_get, run_shell_command]
  rw [if_neg h]
  simp [h, logWarning]

/-! ### File-map and path lemmas -/

lemma mem_setFile {fs : List (String × String)} {p c : String} {q : String × String}
    (h : q ∈ setFile fs p c) : q ∈ fs ∨ q.1 = p := by
  unfold setFile at h
  split at h
  · rcases List.mem_map.mp h with ⟨e, he, hq⟩
    by_cases hb : (e.1 == p) = true
    · right
      rw [if_pos hb] at hq
      rw [← hq]
      exact (beq_iff_eq.mp hb)
    · left
      rw [if_neg hb] at hq
      exact hq ▸ he
  · rcases List.mem_append.mp h with h1 | h2
    · exact Or.inl h1
    · right
      rcases List.mem_singleton.mp h2 with rfl
      rfl

lemma mem_appendFile {fs : List (String × String)} {p c : String} {q : String × String}
    (h : q ∈ appendFile fs p c) : q ∈ fs ∨ q.1 = p := by
  unfold appendFile at h
  split at h
  · rcases List.mem_map.mp h with ⟨e, he, hq⟩
    by_cases hb : (e.1 == p) = true
    · right
      rw [if_pos hb] at hq
      rw [← hq]
      exact (beq_iff_eq.mp hb)
    · left
      rw [if_neg hb] at hq
      exact hq ▸ he
  · rcases List.mem_append.mp h with h1 | h2
    · exact Or.inl h1
    · right
      rcases List.mem_singleton.mp h2 with rfl
      rfl

lemma mem_setFile_self (fs : List (String × String)) (p c : String) :
    (p, c) ∈ setFile fs p c := by
  unfold setFile
  split
  · next hany =>
    rcases List.any_eq_true.mp hany with ⟨e, he, hbe⟩
    refine List.mem_map.mpr ⟨e, he, ?_⟩
    rw [if_pos hbe, (beq_iff_eq.mp hbe)]
  · exact List.mem_append.mpr (Or.inr (List.mem_singleton.mpr rfl))

lemma mem_setFile_of_ne {fs : List (String × String)} {p c p' c' : String}
    (h : (p, c) ∈ fs) (hne : p ≠ p') : (p, c) ∈ setFile fs p' c' := by
  unfold setFile
  split
  · refine List.mem_map.mpr ⟨(p, c), h, ?_⟩
    rw [if_neg (by simpa using hne)]
  · exact List.mem_append.mpr (Or.inl h)

lemma pjoin_inj_of_head {a x y : String}
    (hx : ¬ x.data.head? = some '/') (hy : ¬ y.data.head? = some '/')
    (h : pjoin a x = pjoin a y) : x = y := by
  unfold pjoin at h
  rw [if_neg hx, if_neg hy] at h
  by_cases hc : a.data = [] ∨ a.data.getLast? = some '/'
  · rw [if_pos hc, if_pos hc] at h
    exact string_append_left_cancel h
  · rw [if_neg hc, if_neg hc] at h
    exact string_append_left_cancel (a := a ++ "/") h

lemma ne_append_of_not_prefix {p q : String} (h : ¬ (p.data <+: q.data)) (t : String) :
    q ≠ p ++ t := by
  intro he
  exact h ⟨t.data, by rw [he]; exact (String.data_append p t).symm⟩

/-! ### Exact characterizations of `run_shell_command` and `collect_helper` -/

lemma run_shell_command_ok_eq (env : Env) (cmd : String) (b : Bool) (s : St)
    (h : (env s.counter cmd).code = 0) :
    run_shell_command env cmd b s =
      ((0, (env s.counter cmd).out),
       { s with counter := s.counter + 1, trace := s.trace ++ [cmd] }) := by
  simp only [run_shell_command]
  rw [if_pos h]

lemma run_shell_command_err_eq (env : Env) (cmd : String) (s : St)
    (h : (env s.counter cmd).code ≠ 0) :
    run_shell_command env cmd true s =
      (((env s.counter cmd).code, (env s.counter cmd).out),
       { s with
         counter := s.counter + 1
         trace := s.trace ++ [cmd]
         log := s.log ++
           [⟨LogLevel.warning, "Failed in shell command: " ++ cmd ++ ", output: " ++
              (env s.counter cmd).out⟩] }) := by
  simp only [run_shell_command]
  rw [if_neg h]
  simp [logWarning]

lemma collect_helper_fail (env : Env) (cmd fn rn : String) (s : St)
    (h : (env s.counter cmd).code ≠ 0) :
    collect_helper env cmd fn rn s =
      { s with
        counter := s.counter + 1
        trace := s.trace ++ [cmd]
        log := s.log ++
          [⟨LogLevel.warning, "Failed in shell command: " ++ cmd ++ ", output: " ++
             (env s.counter cmd).out⟩,
           ⟨LogLevel.warning, "Error when running " ++ cmd ++ ": " ++
             (env s.counter cmd).out⟩] } := by
  simp only [collect_helper, run_shell_command_err_eq env cmd s h]
  rw [if_pos h]
  simp [logWarning]

lemma collect_helper_ok (env : Env) (cmd fn rn : String) (s : St)
    (h : (env s.counter cmd).code = 0) :
    collect_helper env cmd fn rn s =
      { s with
        counter := s.counter + 1
        trace := s.trace ++ [cmd]
        files := setFile s.files (pjoin s.opt.output_dir fn) (env s.counter cmd).out
        log := s.log ++ [⟨LogLevel.info, "Collected " ++ rn⟩] } := by
  simp only [collect_helper, run_shell_command_ok_eq env cmd true s h]
  simp [logInfo, h]

lemma collect_helper_frame (env : Env) (cmd fn rn : String) (s : St) :
    (collect_helper env cmd fn rn s).opt = s.opt ∧
    (collect_helper env cmd fn rn s).dirs = s.dirs ∧
    (collect_helper env cmd fn rn s).archives = s.archives ∧
    ∀ q ∈ (collect_helper env cmd fn rn s).files,
      q ∈ s.files ∨ q.1 = pjoin s.opt.output_dir fn := by
  by_cases h : (env s.counter cmd).code = 0
  · rw [collect_helper_ok env cmd fn rn s h]
    refine ⟨rfl, rfl, rfl, ?_⟩
    intro q hq
    exact mem_setFile hq
  · rw [collect_helper_fail env cmd fn rn s h]
    exact ⟨rfl, rfl, rfl, fun q hq => Or.inl hq⟩

/-! ### Simple-collector frame lemmas -/

lemma collect_helper_logDebug_frame (env : Env) (cmd fn rn m : String) (s : St) :
    (collect_helper env cmd fn rn (logDebug s m)).opt = s.opt ∧
    (collect_helper env cmd fn rn (logDebug s m)).dirs = s.dirs ∧
    (collect_helper env cmd fn rn (logDebug s m)).archives = s.archives ∧
    ∀ q ∈ (collect_helper env cmd fn rn (logDebug s m)).files,
      q ∈ s.files ∨ q.1 = pjoin s.opt.output_dir fn := by
  have h := collect_helper_frame env cmd fn rn (logDebug s m)
  simpa [logDebug] using h

lemma collect_kube_version_frame (env : Env) (s : St) :
    (collect_kube_version env s).opt = s.opt ∧
    (collect_kube_version env s).dirs = s.dirs ∧
    (collect_kube_version env s).archives = s.archives ∧
    ∀ q ∈ (collect_kube_version env s).files,
      q ∈ s.files ∨ q.1 = pjoin s.opt.output_dir "version.info" := by
  simp only [collect_kube_version]
  exact collect_helper_logDebug_frame env _ _ _ _ s

lemma collect_node_info_frame (env : Env) (s : St) :
    (collect_node_info env s).opt = s.opt ∧
    (collect_node_info env s).dirs = s.dirs ∧
    (collect_node_info env s).archives = s.archives ∧
    ∀ q ∈ (collect_node_info env s).files,
      q ∈ s.files ∨ q.1 = pjoin s.opt.output_dir "nodes.info" := by
  simp only [collect_node_info]
  exact collect_helper_logDebug_frame env _ _ _ _ s

lemma collect_namespace_info_frame (env : Env) (s : St) :
    (collect_namespace_info env s).opt = s.opt ∧
    (collect_namespace_info env s).dirs = s.dirs ∧
    (collect_namespace_info env s).archives = s.archives ∧
    ∀ q ∈ (collect_namespace_info env s).files,
      q ∈ s.files ∨ q.1 = pjoin s.opt.output_dir "namespace.info" := by
  simp only [collect_namespace_info]
  exact collect_helper_logDebug_frame env _ _ _ _ s

lemma collect_events_frame (env : Env) (s : St) :
    (collect_events env s).opt = s.opt ∧
    (collect_events env s).dirs = s.dirs ∧
    (collect_events env s).archives = s.archives ∧
    ∀ q ∈ (collect_events env s).files,
      q ∈ s.files ∨ q.1 = pjoin s.opt.output_dir "events" := by
  simp only [collect_events]
  exact collect_helper_frame env _ _ _ s

lemma collect_pvc_list_frame (env : Env) (s : St) :
    (collect_pvc_list env s).opt = s.opt ∧
    (collect_pvc_list env s).dirs = s.dirs ∧
    (collect_pvc_list env s).archives = s.archives ∧
    ∀ q ∈ (collect_pvc_list env s).files,
      q ∈ s.files ∨ q.1 = pjoin s.opt.output_dir "pvc.list" := by
  simp only [collect_pvc_list]
  exact collect_helper_frame env _ _ _ s

lemma collect_configmap_list_frame (env : Env) (s : St) :
    (collect_configmap_list env s).opt = s.opt ∧
    (collect_configmap_list env s).dirs = s.dirs ∧
    (collect_configmap_list env s).archives = s.archives ∧
    ∀ q ∈ (collect_configmap_list env s).files,
      q ∈ s.files ∨ q.1 = pjoin s.opt.output_dir "configmap.list" := by
  simp only [collect_configmap_list]
  exact collect_helper_frame env _ _ _ s

/-! ### The API-resource collector under a deterministic environment -/

/-- The environment answers a command line the same way at every invocation
index (no state in the outside world). -/
def detEnv (env : Env) : Prop := ∀ i j c, env i c = env j c

/-- Recorded `(resource, value)` entry produced by one loop iteration of
`collect_api_resources`, under a deterministic environment. -/
def apiSpecEntry (env : Env) (opt : Options) (r : String) :
    Option (String × Option String) :=
  if opt.kube_cli = "kubectl" ∧ r = "Routes" then none
  else if (env 0 (kubeGetCmd opt r)).code = 0 ∧ (env 0 (kubeGetCmd opt r)).out ≠ "" then
    some (r, some (env 0 (kubeGetCmd opt r)).out)
  else none

/-- Log contribution of one loop iteration of `collect_api_resources`. -/
def apiSpecLog (env : Env) (opt : Options) (r : String) : List LogEntry :=
  if opt.kube_cli = "kubectl" ∧ r = "Routes" then []
  else if (env 0 (kubeGetCmd opt r)).code = 0 then
    (if (env 0 (kubeGetCmd opt r)).out ≠ "" then
      [⟨LogLevel.info, "  + " ++ r⟩] else [])
  else
    [⟨LogLevel.warning, "Failed in shell command: " ++ kubeGetCmd opt r ++
       ", output: " ++ (env 0 (kubeGetCmd opt r)).out⟩,
     ⟨LogLevel.warning, "Failed to get " ++ r ++ " resource: " ++
       (env 0 (kubeGetCmd opt r)).out⟩]

/-- Trace contribution of one loop iteration of `collect_api_resources`. -/
def apiSpecTrace (env : Env) (opt : Options) (r : String) : List String :=
  if opt.kube_cli = "kubectl" ∧ r = "Routes" then []
  else if (env 0 (kubeGetCmd opt r)).code = 0 ∧ (env 0 (kubeGetCmd opt r)).out ≠ "" then
    [kubeGetCmd opt r, kubeGetCmd opt r]
  else [kubeGetCmd opt r]

lemma api_step_det (env : Env) (hdet : detEnv env) (acc : List (String × Option String))
    (s : St) (r : String) :
    (api_step env acc s r).1 = acc ++ (apiSpecEntry env s.opt r).toList ∧
    (api_step env acc s r).2.opt = s.opt ∧
    (api_step env acc s r).2.files = s.files ∧
    (api_step env acc s r).2.dirs = s.dirs ∧
    (api_step env acc s r).2.archives = s.archives ∧
    (api_step env acc s r).2.log = s.log ++ apiSpecLog env s.opt r ∧
    (api_step env acc s r).2.trace = s.trace ++ apiSpecTrace env s.opt r := by
  unfold api_step apiSpecEntry apiSpecLog apiSpecTrace
  by_cases hskip : s.opt.kube_cli = "kubectl" ∧ r = "Routes"
  · simp [hskip]
  · rw [if_neg hskip, if_neg hskip, if_neg hskip, if_neg hskip]
    have hc0 : env s.counter (kubeGetCmd s.opt r) = env 0 (kubeGetCmd s.opt r) :=
      hdet s.counter 0 _
    by_cases hcode : (env 0 (kubeGetCmd s.opt r)).code = 0
    · rw [run_kube_get_ok env r s (by rw [hc0]; exact hcode)]
      by_cases hout : (env 0 (kubeGetCmd s.opt r)).out ≠ ""
      · have hc1 : env (s.counter + 1) (kubeGetCmd s.opt r) = env 0 (kubeGetCmd s.opt r) :=
          hdet (s.counter + 1) 0 _
        rw [hc0]
        simp only [hout, if_pos (And.intro hcode hout)]
        rw [run_kube_get_ok env r _ (by simpa using (by rw [hc1]; exact hcode))]
        simp [logInfo, hc1, hout, hcode, List.append_assoc]
      · push_neg at hout
        rw [hc0, hout]
        simp [hcode]
    · rw [run_kube_get_fail env r s (by rw [hc0]; exact hcode)]
      rw [hc0]
      simp [hcode, if_neg]

lemma api_loop_det (env : Env) (hdet : detEnv env) :
    ∀ (rs : List String) (acc : List (String × Option String)) (s : St),
    (api_loop env rs acc s).1 = acc ++ rs.filterMap (apiSpecEntry env s.opt) ∧
    (api_loop env rs acc s).2.opt = s.opt ∧
    (api_loop env rs acc s).2.files = s.files ∧
    (api_loop env rs acc s).2.dirs = s.dirs ∧
    (api_loop env rs acc s).2.archives = s.archives ∧
    (api_loop env rs acc s).2.log = s.log ++ (rs.map (apiSpecLog env s.opt)).flatten ∧
    (api_loop env rs acc s).2.trace = s.trace ++ (rs.map (apiSpecTrace env s.opt)).flatten := by
  intro rs
  induction rs with
  | nil => intro acc s; simp [api_loop]
  | cons r rest ih =>
    intro acc s
    obtain ⟨he, ho, hf, hd, ha, hl, ht⟩ := api_step_det env hdet acc s r
    have hrec := ih (api_step env acc s r).1 (api_step env acc s r).2
    rw [ho] at hrec
    obtain ⟨re, ro, rf, rd, ra, rl, rt⟩ := hrec
    refine ⟨?_, ?_, ?_, ?_, ?_, ?_, ?_⟩
    · show (api_loop env rest (api_step env acc s r).1 (api_step env acc s r).2).1 = _
      rw [re, he, List.filterMap_cons]
      cases hsp : apiSpecEntry env s.opt r with
      | none => simp
      | some e => simp
    · show (api_loop env rest _ _).2.opt = _
      rw [ro]
    · show (api_loop env rest _ _).2.files = _
      rw [rf, hf]
    · show (api_loop env rest _ _).2.dirs = _
      rw [rd, hd]
    · show (api_loop env rest _ _).2.archives = _
      rw [ra, ha]
    · show (api_loop env rest _ _).2.log = _
      rw [rl, hl]
      simp [List.append_assoc]
    · show (api_loop env rest _ _).2.trace = _
      rw [rt, ht]
      simp [List.append_assoc]

lemma apiSpecEntry_eq_some {env : Env} {opt : Options} {r : String}
    {e : String × Option String} (h : apiSpecEntry env opt r = some e) :
    e.1 = r ∧ e.2 = some (env 0 (kubeGetCmd opt r)).out ∧
    (env 0 (kubeGetCmd opt r)).code = 0 ∧ (env 0 (kubeGetCmd opt r)).out ≠ "" ∧
    ¬(opt.kube_cli = "kubectl" ∧ r = "Routes") := by
  unfold apiSpecEntry at h
  by_cases hskip : opt.kube_cli = "kubectl" ∧ r = "Routes"
  · rw [if_pos hskip] at h
    exact absurd h (by simp)
  · rw [if_neg hskip] at h
    by_cases hc : (env 0 (kubeGetCmd opt r)).code = 0 ∧ (env 0 (kubeGetCmd opt r)).out ≠ ""
    · rw [if_pos hc] at h
      rcases Option.some.inj h with rfl
      exact ⟨rfl, rfl, hc.1, hc.2, hskip⟩
    · rw [if_neg hc] at h
      exact absurd h (by simp)

lemma filterMap_apiSpec_fst_sublist (env : Env) (opt : Options) :
    ∀ rs : List String,
      ((rs.filterMap (apiSpecEntry env opt)).map Prod.fst).Sublist rs := by
  intro rs
  induction rs with
  | nil => simp
  | cons r rest ih =>
    rw [List.filterMap_cons]
    cases hs : apiSpecEntry env opt r with
    | none => exact ih.cons r
    | some e =>
      rw [List.map_cons, (apiSpecEntry_eq_some hs).1]
      exact ih.cons₂ r

lemma write_resources_ok_of_values (entries : List (String × Option String))
    (hv : ∀ e ∈ entries, e.2 ≠ none) : ∀ s : St,
    isOkRun (write_resources entries s) = true ∧
    (stOfRun (write_resources entries s)).opt = s.opt ∧
    (stOfRun (write_resources entries s)).dirs = s.dirs ∧
    (stOfRun (write_resources entries s)).archives = s.archives ∧
    (stOfRun (write_resources entries s)).log = s.log ∧
    (stOfRun (write_resources entries s)).counter = s.counter ∧
    (stOfRun (write_resources entries s)).trace = s.trace := by
  induction entries with
  | nil => intro s; simp [write_resources, isOkRun, stOfRun]
  | cons e rest ih =>
    intro s
    rcases e with ⟨r, v⟩
    cases v with
    | none => exact absurd rfl (hv (r, none) (List.mem_cons_self _ _))
    | some o =>
      simp only [write_resources]
      exact ih (fun x hx => hv x (List.mem_cons_of_mem _ hx)) _

lemma write_resources_paths (entries : List (String × Option String)) :
    ∀ (s : St) (q : String × String), q ∈ (stOfRun (write_resources entries s)).files →
      q ∈ s.files ∨ ∃ e ∈ entries, q.1 = pjoin s.opt.output_dir e.1 := by
  induction entries with
  | nil =>
    intro s q hq
    exact Or.inl hq
  | cons e rest ih =>
    intro s q hq
    rcases e with ⟨r, v⟩
    cases v with
    | none => exact Or.inl hq
    | some o =>
      simp only [write_resources] at hq
      rcases ih _ q hq with h1 | ⟨e2, he2, hp⟩
      · rcases mem_setFile h1 with h2 | h2
        · exact Or.inl h2
        · exact Or.inr ⟨(r, some o), List.mem_cons_self _ _, h2⟩
      · exact Or.inr ⟨e2, List.mem_cons_of_mem _ he2, hp⟩

lemma write_resources_mem_preserve (entries : List (String × Option String)) :
    ∀ (s : St) (p c : String), (p, c) ∈ s.files →
      (∀ e ∈ entries, pjoin s.opt.output_dir e.1 ≠ p) →
      (p, c) ∈ (stOfRun (write_resources entries s)).files := by
  induction entries with
  | nil => intro s p c h _; exact h
  | cons e rest ih =>
    intro s p c h hne
    rcases e with ⟨r, v⟩
    cases v with
    | none => exact h
    | some o =>
      simp only [write_resources]
      refine ih _ p c ?_ ?_
      · exact mem_setFile_of_ne h
          (fun hp => (hne (r, some o) (List.mem_cons_self _ _)) (hp ▸ rfl))
      · intro e2 he2
        exact hne e2 (List.mem_cons_of_mem _ he2)

lemma write_resources_mem (entries : List (String × Option String)) :
    ∀ (s : St) (k o : String), (k, some o) ∈ entries →
      (entries.map Prod.fst).Nodup →
      (∀ e ∈ entries, e.1 ≠ k →
        pjoin s.opt.output_dir e.1 ≠ pjoin s.opt.output_dir k) →
      (∀ e ∈ entries, e.2 ≠ none) →
      (pjoin s.opt.output_dir k, o) ∈ (stOfRun (write_resources entries s)).files := by
  induction entries with
  | nil => intro s k o h; exact absurd h (by simp)
  | cons e rest ih =>
    intro s k o hmem hnd hpn hv
    rcases e with ⟨r, v⟩
    cases v with
    | none => exact absurd rfl (hv (r, none) (List.mem_cons_self _ _))
    | some w =>
      simp only [write_resources]
      rcases List.mem_cons.mp hmem with heq | hrest
      · rcases Prod.mk.injEq .. ▸ heq with ⟨hk, hw⟩
        rcases Option.some.inj hw with rfl
        subst hk
        refine write_resources_mem_preserve rest _ _ _ (mem_setFile_self _ _ _) ?_
        intro e2 he2
        have hne2 : e2.1 ≠ k := by
          intro hcc
          have : k ∈ rest.map Prod.fst := List.mem_map.mpr ⟨e2, he2, hcc⟩
          exact (List.nodup_cons.mp hnd).1 (by simpa using this)
        exact hpn e2 (List.mem_cons_of_mem _ he2) hne2
      · refine ih _ k o hrest (List.nodup_cons.mp hnd).2 ?_
          (fun x hx => hv x (List.mem_cons_of_mem _ hx))
        intro e2 he2 hne2
        exact hpn e2 (List.mem_cons_of_mem _ he2) hne2

lemma collect_api_resources_det (env : Env) (hdet : detEnv env) (s : St) :
    isOkRun (collect_api_resources env s) = true ∧
    (stOfRun (collect_api_resources env s)).opt = s.opt ∧
    (stOfRun (collect_api_resources env s)).dirs = s.dirs ∧
    (stOfRun (collect_api_resources env s)).archives = s.archives ∧
    (stOfRun (collect_api_resources env s)).log =
      s.log ++ [⟨LogLevel.info, "Collecting API resources:"⟩] ++
        (API_RESOURCES.map (apiSpecLog env s.opt)).flatten ∧
    (stOfRun (collect_api_resources env s)).trace =
      s.trace ++ (API_RESOURCES.map (apiSpecTrace env s.opt)).flatten ∧
    (∀ q ∈ (stOfRun (collect_api_resources env s)).files,
      q ∈ s.files ∨ ∃ e ∈ API_RESOURCES.filterMap (apiSpecEntry env s.opt),
        q.1 = pjoin s.opt.output_dir e.1) ∧
    (∀ k o : String, (k, some o) ∈ API_RESOURCES.filterMap (apiSpecEntry env s.opt) →
      (∀ x ∈ API_RESOURCES, x ≠ k →
        pjoin s.opt.output_dir x ≠ pjoin s.opt.output_dir k) →
      (pjoin s.opt.output_dir k, o) ∈ (stOfRun (collect_api_resources env s)).files) := by
  have hvals : ∀ e ∈ API_RESOURCES.filterMap (apiSpecEntry env s.opt), e.2 ≠ none := by
    intro e he
    rcases List.mem_filterMap.mp he with ⟨r, _, hr⟩
    rw [(apiSpecEntry_eq_some hr).2.1]
    simp
  have hmemfst : ∀ e ∈ API_RESOURCES.filterMap (apiSpecEntry env s.opt),
      e.1 ∈ API_RESOURCES := by
    intro e he
    rcases List.mem_filterMap.mp he with ⟨r, hrm, hr⟩
    rw [(apiSpecEntry_eq_some hr).1]
    exact hrm
  have hnd : ((API_RESOURCES.filterMap (apiSpecEntry env s.opt)).map Prod.fst).Nodup :=
    (filterMap_apiSpec_fst_sublist env s.opt API_RESOURCES).nodup (by decide)
  simp only [collect_api_resources]
  set s0 := logInfo s "Collecting API resources:" with hs0
  have e1 : s0.opt = s.opt := rfl
  have e2 : s0.files = s.files := rfl
  have e3 : s0.dirs = s.dirs := rfl
  have e4 : s0.archives = s.archives := rfl
  have e5 : s0.log = s.log ++ [⟨LogLevel.info, "Collecting API resources:"⟩] := rfl
  have e6 : s0.trace = s.trace := rfl
  obtain ⟨he, ho, hf, hd, ha, hl, ht⟩ := api_loop_det env hdet API_RESOURCES [] s0
  rw [List.nil_append] at he
  rw [e1] at he ho hl ht
  rw [e2] at hf
  rw [e3] at hd
  rw [e4] at ha
  rw [e5] at hl
  rw [e6] at ht
  rw [he]
  set sl := (api_loop env API_RESOURCES [] s0).2 with hsl
  obtain ⟨w1, w2, w3, w4, w5, _, w7⟩ :=
    write_resources_ok_of_values (API_RESOURCES.filterMap (apiSpecEntry env s.opt))
      hvals sl
  refine ⟨w1, ?_, ?_, ?_, ?_, ?_, ?_, ?_⟩
  · rw [w2, ho]
  · rw [w3, hd]
  · rw [w4, ha]
  · rw [w5, hl]
  · rw [w7, ht]
  · intro q hq
    rcases write_resources_paths _ sl q hq with h1 | ⟨e, hem, hp⟩
    · rw [hf] at h1
      exact Or.inl h1
    · refine Or.inr ⟨e, hem, ?_⟩
      rw [hp, ho]
  · intro k o hmem hinj
    have hh := write_resources_mem (API_RESOURCES.filterMap (apiSpecEntry env s.opt))
      sl k o hmem hnd
      (by
        rw [ho]
        intro e2 he2 hne2
        exact hinj e2.1 (hmemfst e2 he2) hne2)
      hvals
    rw [ho] at hh
    exact hh

/-! ### Generic fold preservation -/

lemma foldl_pres {α : Type} (g : St → α → St) (P : St → Prop)
    (hg : ∀ s x, P s → P (g s x)) : ∀ (l : List α) (s : St), P s → P (l.foldl g s) := by
  intro l
  induction l with
  | nil => intro s h; exact h
  | cons c cs ih => intro s h; exact ih (g s c) (hg s c h)

lemma foldl_opt_eq {α : Type} (g : St → α → St) (hg : ∀ st x, (g st x).opt = st.opt) :
    ∀ (l : List α) (s : St), (l.foldl g s).opt = s.opt := by
  intro l
  induction l with
  | nil => intro s; rfl
  | cons c cs ih => intro s; exact (ih (g s c)).trans (hg s c)

/-! ### `OPT` is read-only for every collector -/

@[simp] lemma logInfo_opt (s : St) (m : String) : (logInfo s m).opt = s.opt := rfl

@[simp] lemma logWarning_opt (s : St) (m : String) : (logWarning s m).opt = s.opt := rfl

@[simp] lemma logDebug_opt (s : St) (m : String) : (logDebug s m).opt = s.opt := rfl

@[simp] lemma logError_opt (s : St) (m : String) : (logError s m).opt = s.opt := rfl

@[simp] lemma get_pods_opt (env : Env) (s : St) : (get_pods env s).2.opt = s.opt := by
  simp only [get_pods]
  split <;> simp [logWarning]

@[simp] lemma get_pg_pods_opt (env : Env) (s : St) : (get_pg_pods env s).2.opt = s.opt := by
  simp only [get_pg_pods]
  split <;> simp [logWarning]

@[simp] lemma get_containers_opt (env : Env) (pod : String) (s : St) :
    (get_containers env pod s).2.opt = s.opt := by
  simp only [get_containers]
  split <;> simp [logWarning]

@[simp] lemma run_kube_get_opt (env : Env) (r : String) (s : St) :
    (run_kube_get env r s).2.opt = s.opt := by
  simp only [run_kube_get]
  split <;> simp [logWarning]

@[simp] lemma collect_helper_opt (env : Env) (cmd fn rn : String) (s : St) :
    (collect_helper env cmd fn rn s).opt = s.opt :=
  (collect_helper_frame env cmd fn rn s).1

lemma api_step_opt (env : Env) (acc : List (String × Option String)) (s : St)
    (r : String) : (api_step env acc s r).2.opt = s.opt := by
  simp only [api_step]
  split
  · rfl
  · split
    · split
      · simp [logInfo]
      · simp
    · simp

lemma api_loop_opt (env : Env) :
    ∀ (rs : List String) (acc : List (String × Option String)) (s : St),
      (api_loop env rs acc s).2.opt = s.opt := by
  intro rs
  induction rs with
  | nil => intro acc s; rfl
  | cons r rest ih =>
    intro acc s
    simp only [api_loop]
    rw [ih]
    exact api_step_opt env acc s r

lemma write_resources_opt (entries : List (String × Option String)) :
    ∀ s : St, (stOfRun (write_resources entries s)).opt = s.opt := by
  induction entries with
  | nil => intro s; rfl
  | cons e rest ih =>
    intro s
    rcases e with ⟨r, v⟩
    cases v with
    | none => rfl
    | some o =>
      simp only [write_resources]
      exact ih _

lemma collect_api_resources_opt (env : Env) (s : St) :
    (stOfRun (collect_api_resources env s)).opt = s.opt := by
  simp only [collect_api_resources]
  rw [write_resources_opt, api_loop_opt]
  rfl

@[simp] lemma collect_one_pod_log_opt (env : Env) (logs_dir pod cont : String) (s : St) :
    (collect_one_pod_log env logs_dir pod cont s).opt = s.opt := by
  simp [collect_one_pod_log, logInfo]

lemma pods_logs_loop_opt (env : Env) (logs_dir : String) :
    ∀ (pods : List String) (s : St),
      (stOfRun (pods_logs_loop env logs_dir pods s)).opt = s.opt := by
  intro pods
  induction pods with
  | nil => intro s; rfl
  | cons pod rest ih =>
    intro s
    simp only [pods_logs_loop]
    cases hc : (get_containers env pod s).1 with
    | none =>
      show (stOfRun (Except.error _)).opt = s.opt
      simp [stOfRun]
    | some conts =>
      rw [ih]
      exact (foldl_opt_eq _ (fun st x => collect_one_pod_log_opt env logs_dir pod x st)
        conts _).trans (get_containers_opt env pod s)

lemma collect_pods_logs_opt (env : Env) (s : St) :
    (stOfRun (collect_pods_logs env s)).opt = s.opt := by
  simp only [collect_pods_logs]
  split
  · simp [stOfRun, logWarning]
  · split
    · simp [stOfRun, logWarning]
    · rw [pods_logs_loop_opt]
      simp

@[simp] lemma run_one_exec_opt (env : Env) (path cmd : String) (s : St) :
    (run_one_exec env path cmd s).opt = s.opt := by
  simp [run_one_exec]

lemma pg_detail_container_opt (env : Env) (logs_dir pod cont : String) (s : St) :
    (stOfRun (pg_detail_container env logs_dir pod cont s)).opt = s.opt := by
  simp only [pg_detail_container]
  split
  · show (stOfRun (Except.ok _)).opt = s.opt
    simp only [stOfRun]
    exact foldl_opt_eq _ (fun st x => run_one_exec_opt env _ _ st) _ _
  · rfl

lemma pg_details_containers_loop_opt (env : Env) (logs_dir pod : String) :
    ∀ (conts : List String) (s : St),
      (stOfRun (pg_details_containers_loop env logs_dir pod conts s)).opt = s.opt := by
  intro conts
  induction conts with
  | nil => intro s; rfl
  | cons c rest ih =>
    intro s
    simp only [pg_details_containers_loop]
    cases hc : pg_detail_container env logs_dir pod c s with
    | error e =>
      have := pg_detail_container_opt env logs_dir pod c s
      rw [hc] at this
      exact this
    | ok s1 =>
      rw [ih]
      have := pg_detail_container_opt env logs_dir pod c s
      rw [hc] at this
      simpa [logInfo] using this

lemma pg_details_pods_loop_opt (env : Env) (logs_dir : String) :
    ∀ (pods : List String) (s : St),
      (stOfRun (pg_details_pods_loop env logs_dir pods s)).opt = s.opt := by
  intro pods
  induction pods with
  | nil => intro s; rfl
  | cons pod rest ih =>
    intro s
    simp only [pg_details_pods_loop]
    split
    · simp [stOfRun]
    · next conts hsome =>
      split
      · next e heqq =>
        have hthis := pg_details_containers_loop_opt env logs_dir pod conts
          (get_containers env pod s).2
        rw [heqq] at hthis
        show (stOfRun (Except.error e)).opt = s.opt
        exact hthis.trans (get_containers_opt env pod s)
      · next s1 heqq =>
        rw [ih]
        have hthis := pg_details_containers_loop_opt env logs_dir pod conts
          (get_containers env pod s).2
        rw [heqq] at hthis
        exact (hthis : s1.opt = _).trans (get_containers_opt env pod s)

lemma collect_pg_pod_details_opt (env : Env) (s : St) :
    (stOfRun (collect_pg_pod_details env s)).opt = s.opt := by
  simp only [collect_pg_pod_details]
  split
  · simp [stOfRun, logWarning]
  · split
    · simp [stOfRun, logWarning]
    · rw [pg_details_pods_loop_opt]
      simp

@[simp] lemma pg_logs_pod_opt (env : Env) (logs_dir : String) (s : St) (pod : String) :
    (pg_logs_pod env logs_dir s pod).opt = s.opt := by
  simp only [pg_logs_pod, logInfo]
  exact foldl_opt_eq
    (fun st line => { st with
      counter := st.counter + 1
      trace := st.trace ++ [pgCpCmd st.opt pod (pyRstrip line) (logs_dir ++ "/" ++ pod)] })
    (fun st x => rfl) _ _

lemma collect_pg_logs_opt (env : Env) (s : St) :
    (collect_pg_logs env s).opt = s.opt := by
  simp only [collect_pg_logs]
  split
  · simp [logWarning]
  · split
    · simp [logWarning]
    · refine (foldl_opt_eq _ (fun st x => pg_logs_pod_opt env _ st x) _ _).trans ?_
      simp

lemma archive_files_frame (σ : Option Nat) (s : St) :
    (archive_files σ s).opt = s.opt ∧
    (archive_files σ s).files = s.files ∧
    (archive_files σ s).dirs = s.dirs ∧
    (archive_files σ s).archives =
      s.archives ++ [(s.opt.output_dir ++ ".tar.gz", s.opt.dir_name)] := by
  cases σ with
  | none => simp [archive_files, logInfo, logWarning]
  | some n =>
    by_cases hn : n > MAX_ARCHIVE_EMAIL_SIZE
    · simp [archive_files, logInfo, hn]
    · simp [archive_files, logInfo, hn]

/-! ### Empty-discovery skip behavior -/

lemma collect_pods_logs_empty (env : Env) (s : St)
    (hv : env s.counter (podsCmd s.opt) = ⟨0, ""⟩) :
    isOkRun (collect_pods_logs env s) = true ∧
    (stOfRun (collect_pods_logs env s)).opt = s.opt ∧
    (stOfRun (collect_pods_logs env s)).files = s.files ∧
    (stOfRun (collect_pods_logs env s)).dirs =
      s.dirs ++ [pjoin s.opt.output_dir "pod_logs"] ∧
    (stOfRun (collect_pods_logs env s)).archives = s.archives ∧
    (stOfRun (collect_pods_logs env s)).counter = s.counter + 1 := by
  simp only [collect_pods_logs]
  set S : St := { logInfo s "Collecting pod logs:" with
    dirs := (logInfo s "Collecting pod logs:").dirs ++
      [pjoin (logInfo s "Collecting pod logs:").opt.output_dir "pod_logs"] } with hS
  have hc : (env S.counter (podsCmd S.opt)).code = 0 := by
    simp only [hS, logInfo]
    rw [hv]
  have ho : (env S.counter (podsCmd S.opt)).out = "" := by
    simp only [hS, logInfo]
    rw [hv]
  rw [get_pods_ok env S hc, ho]
  simp [stOfRun, isOkRun, logWarning, hS, logInfo, pySplit, splitCharList]

lemma collect_pg_pod_details_empty (env : Env) (s : St)
    (hv : env s.counter (pgPodsCmd s.opt) = ⟨0, ""⟩) :
    isOkRun (collect_pg_pod_details env s) = true ∧
    (stOfRun (collect_pg_pod_details env s)).opt = s.opt ∧
    (stOfRun (collect_pg_pod_details env s)).files = s.files ∧
    (stOfRun (collect_pg_pod_details env s)).dirs =
      s.dirs ++ [pjoin s.opt.output_dir "pg_pod_details"] ∧
    (stOfRun (collect_pg_pod_details env s)).archives = s.archives ∧
    (stOfRun (collect_pg_pod_details env s)).counter = s.counter + 1 := by
  simp only [collect_pg_pod_details]
  set S : St := { logInfo s "Collecting PG pod details:" with
    dirs := (logInfo s "Collecting PG pod details:").dirs ++
      [pjoin (logInfo s "Collecting PG pod details:").opt.output_dir "pg_pod_details"] }
    with hS
  have hc : (env S.counter (pgPodsCmd S.opt)).code = 0 := by
    simp only [hS, logInfo]
    rw [hv]
  have ho : (env S.counter (pgPodsCmd S.opt)).out = "" := by
    simp only [hS, logInfo]
    rw [hv]
  rw [get_pg_pods_ok env S hc, ho]
  simp [stOfRun, isOkRun, logWarning, hS, logInfo, pySplit, splitCharList]

lemma collect_pg_logs_empty (env : Env) (s : St)
    (hv : env s.counter (pgPodsCmd s.opt) = ⟨0, ""⟩) :
    (collect_pg_logs env s).opt = s.opt ∧
    (collect_pg_logs env s).files = s.files ∧
    (collect_pg_logs env s).dirs = s.dirs ++ [pjoin s.opt.output_dir "pg_logs"] ∧
    (collect_pg_logs env s).archives = s.archives ∧
    (collect_pg_logs env s).counter = s.counter + 1 := by
  simp only [collect_pg_logs]
  set S : St := { logInfo s "Collecting last 2 PG logs (This could take a while)" with
    dirs := (logInfo s "Collecting last 2 PG logs (This could take a while)").dirs ++
      [pjoin (logInfo s
        "Collecting last 2 PG logs (This could take a while)").opt.output_dir "pg_logs"] }
    with hS
  have hc : (env S.counter (pgPodsCmd S.opt)).code = 0 := by
    simp only [hS, logInfo]
    rw [hv]
  have ho : (env S.counter (pgPodsCmd S.opt)).out = "" := by
    simp only [hS, logInfo]
    rw [hv]
  rw [get_pg_pods_ok env S hc, ho]
  simp [logWarning, hS, logInfo, pySplit, splitCharList]

@[simp] lemma collect_kube_version_opt (env : Env) (s : St) :
    (collect_kube_version env s).opt = s.opt := (collect_kube_version_frame env s).1

@[simp] lemma collect_node_info_opt (env : Env) (s : St) :
    (collect_node_info env s).opt = s.opt := (collect_node_info_frame env s).1

@[simp] lemma collect_namespace_info_opt (env : Env) (s : St) :
    (collect_namespace_info env s).opt = s.opt := (collect_namespace_info_frame env s).1

@[simp] lemma collect_events_opt (env : Env) (s : St) :
    (collect_events env s).opt = s.opt := (collect_events_frame env s).1

@[simp] lemma collect_pvc_list_opt (env : Env) (s : St) :
    (collect_pvc_list env s).opt = s.opt := (collect_pvc_list_frame env s).1

@[simp] lemma collect_configmap_list_opt (env : Env) (s : St) :
    (collect_configmap_list env s).opt = s.opt := (collect_configmap_list_frame env s).1

@[simp] lemma archive_files_opt (σ : Option Nat) (s : St) :
    (archive_files σ s).opt = s.opt := (archive_files_frame σ s).1

/-- After the `run()` prologue reassigns `OPT.output_dir`, no later step of the
run writes to `OPT`: whatever the environment does and however the run ends,
the final `OPT` equals the prologue value. -/
lemma runStageDetails_opt (env : Env) (σ : Option Nat) (s : St) :
    (stOfRun (runStageDetails env σ s)).opt = s.opt := by
  unfold runStageDetails
  split
  · next e heqq =>
    rw [← heqq, collect_pg_pod_details_opt]
  · next s11 heqq =>
    show (archive_files σ s11).opt = s.opt
    rw [archive_files_opt]
    have hti : (stOfRun (Except.ok s11 : Except (String × St) St)).opt = s11.opt := rfl
    rw [← heqq, collect_pg_pod_details_opt] at hti
    exact hti.symm

lemma runStagePodLogs_opt (env : Env) (σ : Option Nat) (s : St) :
    (stOfRun (runStagePodLogs env σ s)).opt = s.opt := by
  unfold runStagePodLogs
  split
  · next e heqq =>
    rw [← heqq, collect_pods_logs_opt]
  · next s10 heqq =>
    rw [runStageDetails_opt]
    have hti : (stOfRun (Except.ok s10 : Except (String × St) St)).opt = s10.opt := rfl
    rw [← heqq, collect_pods_logs_opt] at hti
    exact hti.symm

lemma runStageApi_opt (env : Env) (σ : Option Nat) (s : St) :
    (stOfRun (runStageApi env σ s)).opt = s.opt := by
  unfold runStageApi
  split
  · next e heqq =>
    rw [← heqq, collect_api_resources_opt]
  · next s8 heqq =>
    rw [runStagePodLogs_opt, collect_pg_logs_opt]
    have hti : (stOfRun (Except.ok s8 : Except (String × St) St)).opt = s8.opt := rfl
    rw [← heqq, collect_api_resources_opt] at hti
    exact hti.symm

@[simp] lemma runStartSt_opt (scriptAbs : String) (s : St) :
    (runStartSt scriptAbs s).opt = runPrologueOpt scriptAbs s.opt := rfl

/-- After the `run()` prologue reassigns `OPT.output_dir`, no later step of the
run writes to `OPT`: whatever the environment does and however the run ends,
the final `OPT` equals the prologue value. -/
lemma runBody_opt (env : Env) (σ : Option Nat) (a : String) (s : St) :
    (stOfRun (runBody env σ a s)).opt = runPrologueOpt a s.opt := by
  unfold runBody
  rw [runStageApi_opt]
  simp

/-! ### Startup-phase characterizations -/

lemma get_kube_cli_trace (env : Env) (s : St) :
    (get_kube_cli env s).2.trace = s.trace ++ ["which oc"] ∨
    (get_kube_cli env s).2.trace = s.trace ++ ["which oc", "which kubectl"] := by
  simp only [get_kube_cli]
  split
  · left
    simp
  · split
    · right
      simp
    · right
      simp [logError]

lemma check_kube_access_trace (env : Env) (s : St) :
    (check_kube_access env s).2.trace =
      s.trace ++ [if s.opt.kube_cli = "oc" then "oc whoami" else "kubectl cluster-info"] := by
  simp only [check_kube_access]
  split <;> simp

/-! ### Concrete runs used by the claim theorems -/

/-- `OPT` as given on the command line: output root `/out`, namespace `ns`,
resolved CLI `kubectl`, run directory name `D`. -/
def optW : Options := ⟨"/out", "ns", "kubectl", "D"⟩

/-- `OPT` after the `run()` prologue joined the run directory name. -/
def optR : Options := ⟨"/out/D", "ns", "kubectl", "D"⟩

def stW : St := ⟨optW, 0, [], [], [], [], []⟩

def stR : St := ⟨optR, 0, [], [], [], [], []⟩

/-- One PG pod `p1` whose only container is named `backrest` — a name that is
not a key of `CONTAINER_COMMANDS`. -/
def envC1 : Env := fun _ c =>
  if c = pgPodsCmd optR then ⟨0, "p1\n"⟩
  else if c = containersCmd optR "p1" then ⟨0, "backrest\n"⟩
  else ⟨0, "x"⟩

/-- C1: the claim says per-step failures during collection are always caught
where they occur, so that in particular pod-detail collection over any
discovered container name never raises an uncaught exception.  The code
indexes `CONTAINER_COMMANDS[container]` directly: for the discovered
container name `backrest` the lookup has no key and the `KeyError`
propagates out of `collect_pg_pod_details` uncaught (modelled as
`Except.error`), after the detail file has already been created by the
`"ab+"` open.  The run never reaches the archive step. -/
theorem C1_pg_pod_details_keyerror :
    collect_pg_pod_details envC1 stR =
      Except.error ("KeyError: backrest",
        ⟨optR, 2, [pgPodsCmd optR, containersCmd optR "p1"],
         [⟨LogLevel.info, "Collecting PG pod details:"⟩],
         [("/out/D/pg_pod_details/p1_backrest.log", "")],
         ["/out/D/pg_pod_details"], []⟩) := rfl

/-- Pod discovery finds `p1`, but the container-discovery command for `p1`
exits non-zero. -/
def envC5 : Env := fun _ c =>
  if c = podsCmd optR then ⟨0, "p1\n"⟩
  else if c = containersCmd optR "p1" then ⟨1, "err"⟩
  else ⟨0, "x"⟩

/-- C5: the claim says a failed container discovery returns an empty result and
the dependent collectors skip their per-pod work without failing the run.  In
the code `get_containers` returns `None` (not an empty list) and
`collect_pods_logs` iterates it unguarded, so the run dies with an uncaught
`TypeError` instead of skipping. -/
theorem C5_container_discovery_typeerror :
    (get_containers envC5 "p1" stR).1 = none ∧
    collect_pods_logs envC5 stR =
      Except.error ("TypeError: \x27NoneType\x27 object is not iterable",
        ⟨optR, 2, [podsCmd optR, containersCmd optR "p1"],
         [⟨LogLevel.info, "Collecting pod logs:"⟩,
          ⟨LogLevel.warning, "Failed in shell command: " ++ containersCmd optR "p1" ++
            ", output: err"⟩,
          ⟨LogLevel.warning, "Failed to get pods: err"⟩],
         [], ["/out/D/pod_logs"], []⟩) :=
  ⟨rfl, rfl⟩

/-- Environment in which every command fails: in particular neither `which oc`
nor `which kubectl` succeeds. -/
def envNoCli : Env := fun _ _ => ⟨1, "not found"⟩

/-- C2 counterexample: when neither CLI binary is found the process terminates
via `sys.exit()` **with no argument**, i.e. with exit status 0 — not with a
non-zero exit status as the claim states. -/
theorem C2_counterexample :
    (mainProgram envNoCli none "/s" "D" "ns" "/out").exitCode? = some 0 := rfl

/-- C2 (amended): if neither CLI binary is found, or the cluster-reachability
probe exits non-zero, the process terminates early — with exit status 0, since
`sys.exit()` is called with no argument — and before any collection subprocess
call: at any early exit the subprocess trace contains only the two `which`
probes and the reachability probe. -/
lemma mainAfterCli_exited (env : Env) (σ : Option Nat) (a : String) (s2 : St)
    (c : Nat) (s : St) (h : mainAfterCli env σ a s2 = RunOutcome.exited c s) :
    c = 0 ∧ s = logError (check_kube_access env s2).2
      "Not connected to kubernetes cluster" := by
  simp only [mainAfterCli] at h
  split at h
  · cases h
    exact ⟨rfl, rfl⟩
  · split at h
    · exact absurd h (by simp)
    · exact absurd h (by simp)

/-- C2 (amended): if neither CLI binary is found, or the cluster-reachability
probe exits non-zero, the process terminates early — with exit status 0, since
`sys.exit()` is called with no argument — and before any collection subprocess
call: at any early exit the subprocess trace contains only the two `which`
probes and the reachability probe. -/
theorem C2_fatal_startup_exit (env : Env) (σ : Option Nat)
    (a dn nsx od : String) (c : Nat) (s : St)
    (h : mainProgram env σ a dn nsx od = RunOutcome.exited c s) :
    c = 0 ∧ ∀ cmd ∈ s.trace,
      cmd ∈ (["which oc", "which kubectl", "oc whoami", "kubectl cluster-info"] :
        List String) := by
  simp only [mainProgram] at h
  split at h
  · next heq =>
    cases h
    refine ⟨rfl, ?_⟩
    rcases get_kube_cli_trace env (mainStartSt dn nsx) with ht | ht <;> rw [ht] <;>
      intro cmd hm <;> simp only [mainStartSt, startSt] at hm <;> simp at hm
    · simp [hm]
    · rcases hm with hm | hm <;> simp [hm]
  · next cli heq =>
    obtain ⟨hc, hs⟩ := mainAfterCli_exited env σ a _ c s h
    subst hs
    refine ⟨hc, ?_⟩
    intro cmd hm
    simp only [logError] at hm
    rw [check_kube_access_trace env _] at hm
    rcases List.mem_append.mp hm with hm1 | hm2
    · have htr : ({ (get_kube_cli env (mainStartSt dn nsx)).2 with
          opt := { (get_kube_cli env (mainStartSt dn nsx)).2.opt with
            kube_cli := cli, output_dir := od } } : St).trace =
          (get_kube_cli env (mainStartSt dn nsx)).2.trace := rfl
      rw [htr] at hm1
      rcases get_kube_cli_trace env (mainStartSt dn nsx) with ht | ht <;>
        rw [ht] at hm1 <;> simp only [mainStartSt, startSt] at hm1 <;> simp at hm1
      · simp [hm1]
      · rcases hm1 with hm1 | hm1 <;> simp [hm1]
    · rcases List.mem_singleton.mp hm2 with rfl
      split <;> simp
/-- Witness for C2: the concrete no-CLI environment exits with status 0 having
run only the two `which` probes. -/
theorem C2_fatal_startup_exit_witness :
    0 = 0 ∧ ∀ cmd ∈ (RunOutcome.st (mainProgram envNoCli none "/s" "D" "ns" "/out")).trace,
      cmd ∈ (["which oc", "which kubectl", "oc whoami", "kubectl cluster-info"] :
        List String) :=
  C2_fatal_startup_exit envNoCli none "/s" "D" "ns" "/out" 0
    (RunOutcome.st (mainProgram envNoCli none "/s" "D" "ns" "/out")) rfl

/-- Pod `p1` with container `c1` is discovered, but the `logs` command for the
pair exits non-zero with output `err`. -/
def envC3 : Env := fun _ c =>
  if c = podsCmd optR then ⟨0, "p1\n"⟩
  else if c = containersCmd optR "p1" then ⟨0, "c1\n"⟩
  else ⟨1, "err"⟩

/-- C3 counterexample: the per-pod log collector does **not** follow the
claimed failure semantics.  With the `logs` subprocess exiting non-zero, the
collector still creates the output file `p1_c1.log` — holding the captured
error text — and logs no warning at all (the run's log gains only the two
info lines). -/
theorem C3_counterexample :
    collect_pods_logs envC3 stR =
      Except.ok
        ⟨optR, 3, [podsCmd optR, containersCmd optR "p1", podLogCmd optR "p1" "c1"],
         [⟨LogLevel.info, "Collecting pod logs:"⟩,
          ⟨LogLevel.info, "  + pod:p1, container:c1"⟩],
         [("/out/D/pod_logs/p1_c1.log", "err")], ["/out/D/pod_logs"], []⟩ := rfl

/-- C3 (amended): for the single-file collectors (`collect_helper`), a
non-zero subprocess exit is logged as warnings naming the command and its
captured output, and nothing is written.  For the per-pod log collector the
failure semantics differ: the log file is created unconditionally before the
subprocess result is known, it receives the whole captured stream (error text
included), the exit code is never inspected, and no warning is logged. -/
theorem C3_failure_semantics :
    (∀ (env : Env) (cmd fn rn : String) (s : St), (env s.counter cmd).code ≠ 0 →
      (collect_helper env cmd fn rn s).files = s.files ∧
      (collect_helper env cmd fn rn s).log = s.log ++
        [⟨LogLevel.warning, "Failed in shell command: " ++ cmd ++ ", output: " ++
           (env s.counter cmd).out⟩,
         ⟨LogLevel.warning, "Error when running " ++ cmd ++ ": " ++
           (env s.counter cmd).out⟩]) ∧
    (∀ (env : Env) (logs_dir pod cont : String) (s : St),
      (env s.counter (podLogCmd s.opt pod (pyRstrip cont))).code ≠ 0 →
      (collect_one_pod_log env logs_dir pod cont s).files =
        setFile s.files (logs_dir ++ "/" ++ pod ++ "_" ++ pyRstrip cont ++ ".log")
          (env s.counter (podLogCmd s.opt pod (pyRstrip cont))).out ∧
      (collect_one_pod_log env logs_dir pod cont s).log =
        s.log ++ [⟨LogLevel.info, "  + pod:" ++ pod ++ ", container:" ++ pyRstrip cont⟩]) := by
  constructor
  · intro env cmd fn rn s h
    rw [collect_helper_fail env cmd fn rn s h]
    exact ⟨rfl, rfl⟩
  · intro env logs_dir pod cont s _
    simp [collect_one_pod_log, logInfo]

/-- Environment in which every subprocess fails with output `err`. -/
def envAllFail : Env := fun _ _ => ⟨1, "err"⟩

/-- Witness for C3 at concrete inputs: a failing single-file collector writes
nothing and logs the two warnings; a failing per-pod `logs` command still
creates the file, filled with the error text, and adds only the info line. -/
theorem C3_failure_semantics_witness :
    ((collect_helper envAllFail "kubectl version " "version.info" "version-info" stR).files
        = [] ∧
      (collect_helper envAllFail "kubectl version " "version.info" "version-info" stR).log
        = [⟨LogLevel.warning,
            "Failed in shell command: kubectl version , output: err"⟩,
           ⟨LogLevel.warning, "Error when running kubectl version : err"⟩]) ∧
    ((collect_one_pod_log envAllFail "/out/D/pod_logs" "p1" "c1\n" stR).files =
        [("/out/D/pod_logs/p1_c1.log", "err")] ∧
      (collect_one_pod_log envAllFail "/out/D/pod_logs" "p1" "c1\n" stR).log =
        [⟨LogLevel.info, "  + pod:p1, container:c1"⟩]) :=
  ⟨C3_failure_semantics.1 envAllFail "kubectl version " "version.info" "version-info" stR
      (by decide),
   C3_failure_semantics.2 envAllFail "/out/D/pod_logs" "p1" "c1\n" stR (by decide)⟩

/-! ### String disequality by index, for log-content reasoning -/

lemma string_ne_of_idx {x y : String} (k : Nat) {c d : Char}
    (hx : x.data[k]? = some c) (hy : y.data[k]? = some d) (hcd : c ≠ d) : x ≠ y := by
  intro he
  rw [he] at hx
  rw [hx] at hy
  exact hcd (Option.some.inj hy)

lemma data_idx_append {x : String} (u : String) {k : Nat} (h : k < x.data.length) :
    (x ++ u).data[k]? = x.data[k]? := by
  rw [String.data_append]
  exact List.getElem?_append_left h

lemma lit_mid_idx (l1 t l2 : String) {k : Nat} (h : k < l1.data.length) :
    (l1 ++ t ++ l2).data[k]? = l1.data[k]? := by
  have h1 : k < (l1 ++ t).data.length := by
    rw [String.data_append, List.length_append]
    omega
  rw [data_idx_append l2 h1, data_idx_append t h]

/-- C4 counterexample: at exactly 25 MiB (26214400 bytes) the code takes the
byte-count/email branch, not the file-share branch, because the comparison is
a strict `>`.  The claim asserts that at ≥ 25 MiB the log holds the
file-share guidance instead of a byte count. -/
theorem C4_counterexample :
    (⟨LogLevel.info, "Archive file size (bytes): 26214400 "⟩ : LogEntry) ∈
      (archive_files (some 26214400) stR).log ∧
    (⟨LogLevel.info,
      "Please request file share link by emailing support@crunchydata.com"⟩ : LogEntry) ∉
      (archive_files (some 26214400) stR).log := by
  decide

/-- C4 (amended): the threshold comparison is strict.  For a size of at most
25 MiB — the boundary value included — the log holds the literal byte count
and the email instruction and not the file-share guidance; for a size
strictly above 25 MiB it holds the too-big notice (which itself states the
byte count) and the file-share guidance, and not the size-report line. -/
theorem C4_archive_size_reporting (n : Nat) :
    (n ≤ MAX_ARCHIVE_EMAIL_SIZE →
      (⟨LogLevel.info, "Archive file size (bytes): " ++ toString n ++ " "⟩ : LogEntry) ∈
        (archive_files (some n) stR).log ∧
      (⟨LogLevel.info, "Email the support dump to support@crunchydata.com"⟩ : LogEntry) ∈
        (archive_files (some n) stR).log ∧
      (⟨LogLevel.info,
        "Please request file share link by emailing support@crunchydata.com"⟩ : LogEntry) ∉
        (archive_files (some n) stR).log) ∧
    (MAX_ARCHIVE_EMAIL_SIZE < n →
      (⟨LogLevel.info,
        "Archive file (" ++ toString n ++ " bytes) may be too big to email."⟩ : LogEntry) ∈
        (archive_files (some n) stR).log ∧
      (⟨LogLevel.info,
        "Please request file share link by emailing support@crunchydata.com"⟩ : LogEntry) ∈
        (archive_files (some n) stR).log ∧
      (⟨LogLevel.info, "Archive file size (bytes): " ++ toString n ++ " "⟩ : LogEntry) ∉
        (archive_files (some n) stR).log) := by
  have hshare_ne_size : ∀ m : Nat,
      "Please request file share link by emailing support@crunchydata.com" ≠
        "Archive file size (bytes): " ++ toString m ++ " " := by
    intro m
    exact string_ne_of_idx 0 (c := 'P') (d := 'A') (by decide)
      ((lit_mid_idx "Archive file size (bytes): " (toString m) " " (by decide)).trans
        (by decide)) (by decide)
  have hsize_ne_l1 : ∀ m : Nat,
      "Archive file size (bytes): " ++ toString m ++ " " ≠
        "Archive file : " ++ ("/out/D" ++ ".tar.gz") ++ " " := by
    intro m
    exact string_ne_of_idx 13 (c := 's') (d := ':')
      ((lit_mid_idx "Archive file size (bytes): " (toString m) " " (by decide)).trans
        (by decide))
      ((lit_mid_idx "Archive file : " ("/out/D" ++ ".tar.gz") " " (by decide)).trans
        (by decide)) (by decide)
  have hsize_ne_dash : ∀ m : Nat,
      "Archive file size (bytes): " ++ toString m ++ " " ≠
        "------------------------------------------------------------------------" := by
    intro m
    exact string_ne_of_idx 0 (c := 'A') (d := '-')
      ((lit_mid_idx "Archive file size (bytes): " (toString m) " " (by decide)).trans
        (by decide)) (by decide) (by decide)
  have hsize_ne_big : ∀ m : Nat,
      "Archive file size (bytes): " ++ toString m ++ " " ≠
        "Archive file (" ++ toString m ++ " bytes) may be too big to email." := by
    intro m
    exact string_ne_of_idx 13 (c := 's') (d := '(')
      ((lit_mid_idx "Archive file size (bytes): " (toString m) " " (by decide)).trans
        (by decide))
      ((lit_mid_idx "Archive file ("
        (toString m) " bytes) may be too big to email." (by decide)).trans (by decide))
      (by decide)
  have hsize_ne_share : ∀ m : Nat,
      "Archive file size (bytes): " ++ toString m ++ " " ≠
        "Please request file share link by emailing support@crunchydata.com" := by
    intro m
    exact string_ne_of_idx 0 (c := 'A') (d := 'P')
      ((lit_mid_idx "Archive file size (bytes): " (toString m) " " (by decide)).trans
        (by decide)) (by decide) (by decide)
  have hshare_ne_l1 :
      "Please request file share link by emailing support@crunchydata.com" ≠
        "Archive file : " ++ ("/out/D" ++ ".tar.gz") ++ " " := by
    exact string_ne_of_idx 0 (c := 'P') (d := 'A') (by decide)
      ((lit_mid_idx "Archive file : " ("/out/D" ++ ".tar.gz") " " (by decide)).trans
        (by decide)) (by decide)
  constructor
  · intro hle
    have hgt : ¬ (MAX_ARCHIVE_EMAIL_SIZE < n) := by omega
    simp only [archive_files, logInfo, if_neg hgt, stR]
    refine ⟨by simp, by simp, ?_⟩
    intro hmem
    simp only [List.nil_append, List.append_assoc, List.cons_append, List.mem_cons,
      List.mem_singleton, List.not_mem_nil, LogEntry.mk.injEq] at hmem
    rcases hmem with ⟨_, h⟩ | ⟨_, h⟩ | ⟨_, h⟩ | ⟨_, h⟩ | ⟨_, h⟩ | h
    · exact hshare_ne_l1 h
    · exact absurd h (by decide)
    · exact hshare_ne_size n h
    · exact absurd h (by decide)
    · exact absurd h (by decide)
    · exact h
  · intro hgt
    simp only [archive_files, logInfo, if_pos hgt, stR]
    refine ⟨by simp, by simp, ?_⟩
    intro hmem
    simp only [List.nil_append, List.append_assoc, List.cons_append, List.mem_cons,
      List.mem_singleton, List.not_mem_nil, LogEntry.mk.injEq] at hmem
    rcases hmem with ⟨_, h⟩ | ⟨_, h⟩ | ⟨_, h⟩ | ⟨_, h⟩ | ⟨_, h⟩ | h
    · exact hsize_ne_l1 n h
    · exact hsize_ne_dash n h
    · exact hsize_ne_big n h
    · exact hsize_ne_share n h
    · exact hsize_ne_dash n h
    · exact h

/-- Witness for C4 at the boundary and just above it: 26214400 bytes (exactly
25 MiB) is reported with the byte count and email instruction; 26214401 bytes
gets the too-big notice and the file-share guidance. -/
theorem C4_archive_size_reporting_witness :
    ((⟨LogLevel.info, "Archive file size (bytes): " ++ toString 26214400 ++ " "⟩ : LogEntry) ∈
        (archive_files (some 26214400) stR).log ∧
      (⟨LogLevel.info, "Email the support dump to support@crunchydata.com"⟩ : LogEntry) ∈
        (archive_files (some 26214400) stR).log ∧
      (⟨LogLevel.info,
        "Please request file share link by emailing support@crunchydata.com"⟩ : LogEntry) ∉
        (archive_files (some 26214400) stR).log) ∧
    ((⟨LogLevel.info,
        "Archive file (" ++ toString 26214401 ++ " bytes) may be too big to email."⟩ :
          LogEntry) ∈ (archive_files (some 26214401) stR).log ∧
      (⟨LogLevel.info,
        "Please request file share link by emailing support@crunchydata.com"⟩ : LogEntry) ∈
        (archive_files (some 26214401) stR).log ∧
      (⟨LogLevel.info, "Archive file size (bytes): " ++ toString 26214401 ++ " "⟩ :
          LogEntry) ∉ (archive_files (some 26214401) stR).log) :=
  ⟨(C4_archive_size_reporting 26214400).1 (by decide),
   (C4_archive_size_reporting 26214401).2 (by decide)⟩

/-- Container discovery output `database,collect\n` for pod `p1`. -/
def envC6 : Env := fun _ c =>
  if c = containersCmd optR "p1" then ⟨0, "database,collect\n"⟩ else ⟨1, ""⟩

/-- C6 counterexample: for the successful container-discovery output
`"database,collect\n"`, `get_containers` returns the comma-split fields
unchanged, so the final returned name is `"collect\n"` — it retains the
trailing newline, contradicting the claim that no returned name does. -/
theorem C6_counterexample :
    (get_containers envC6 "p1" stR).1 = some ["database", "collect\n"] ∧
    pyRstrip "collect\n" ≠ "collect\n" := by
  constructor
  · rfl
  · decide

/-- C6 (amended): the pod-list and PG-pod-list discoveries split on newlines
and drop the final entry, so for newline-terminated output they return exactly
the names, none lost and none retaining a newline; the container-list
discovery splits on commas without stripping, so its last entry keeps the
trailing newline, and it is the callers\x27 per-entry `rstrip` that recovers
the exact names. -/
theorem C6_discovery_parsing :
    (∀ (env : Env) (s : St) (names : List String),
      (∀ n ∈ names, '\n' ∉ n.data) →
      env s.counter (podsCmd s.opt) = ⟨0, joinLines names⟩ →
      (get_pods env s).1 = some names) ∧
    (∀ (env : Env) (s : St) (names : List String),
      (∀ n ∈ names, '\n' ∉ n.data) →
      env s.counter (pgPodsCmd s.opt) = ⟨0, joinLines names⟩ →
      (get_pg_pods env s).1 = some names) ∧
    (∀ (env : Env) (s : St) (pod : String) (names : List String), names ≠ [] →
      (∀ n ∈ names, ',' ∉ n.data) → (∀ n ∈ names, pyRstrip n = n) →
      env s.counter (containersCmd s.opt pod) = ⟨0, joinCommas names ++ "\n"⟩ →
      Option.map (List.map pyRstrip) (get_containers env pod s).1 = some names) := by
  refine ⟨?_, ?_, ?_⟩
  · intro env s names hn hv
    have hc : (env s.counter (podsCmd s.opt)).code = 0 := by rw [hv]
    have ho : (env s.counter (podsCmd s.opt)).out = joinLines names := by rw [hv]
    rw [get_pods_ok env s hc]
    simp only [ho, pySplit_joinLines names hn, List.dropLast_concat]
  · intro env s names hn hv
    have hc : (env s.counter (pgPodsCmd s.opt)).code = 0 := by rw [hv]
    have ho : (env s.counter (pgPodsCmd s.opt)).out = joinLines names := by rw [hv]
    rw [get_pg_pods_ok env s hc]
    simp only [ho, pySplit_joinLines names hn, List.dropLast_concat]
  · intro env s pod names h0 hcm hr hv
    have hc : (env s.counter (containersCmd s.opt pod)).code = 0 := by rw [hv]
    have ho : (env s.counter (containersCmd s.opt pod)).out = joinCommas names ++ "\n" := by
      rw [hv]
    rw [get_containers_ok env pod s hc]
    simp only [ho, Option.map_some]
    exact congrArg some (pySplit_joinCommas_newline names h0 hcm hr)

/-- Discovery outputs used by the C6 witness: two pods, one PG pod, and the
containers `database,collect` for pod `p1`. -/
def envC6w : Env := fun _ c =>
  if c = podsCmd optR then ⟨0, "p1\npod2\n"⟩
  else if c = pgPodsCmd optR then ⟨0, "pg1\n"⟩
  else if c = containersCmd optR "p1" then ⟨0, "database,collect\n"⟩
  else ⟨1, ""⟩

/-- Witness for C6 on concrete discovery outputs. -/
theorem C6_discovery_parsing_witness :
    (get_pods envC6w stR).1 = some ["p1", "pod2"] ∧
    (get_pg_pods envC6w stR).1 = some ["pg1"] ∧
    Option.map (List.map pyRstrip) (get_containers envC6w "p1" stR).1 =
      some ["database", "collect"] :=
  ⟨C6_discovery_parsing.1 envC6w stR ["p1", "pod2"] (by decide) (by decide),
   C6_discovery_parsing.2.1 envC6w stR ["pg1"] (by decide) (by decide),
   C6_discovery_parsing.2.2 envC6w stR "p1" ["database", "collect"] (by decide)
     (by decide) (by decide) (by decide)⟩

lemma string_append_right_cancel {a b c : String} (h : a ++ b = c ++ b) : a = c := by
  have hd := congrArg String.data h
  simp only [String.data_append] at hd
  exact String.ext (List.append_cancel_right hd)

lemma kubeGetCmd_optR_inj {a b : String}
    (h : kubeGetCmd optR a = kubeGetCmd optR b) : a = b := by
  unfold kubeGetCmd at h
  rw [show get_namespace_argument optR = "-n ns" from rfl] at h
  have h1 := string_append_right_cancel h
  have h2 := string_append_right_cancel h1
  have h3 := string_append_right_cancel h2
  exact string_append_left_cancel h3

lemma apiSpecTrace_mem {env : Env} {opt : Options} {r x : String}
    (h : x ∈ apiSpecTrace env opt r) : x = kubeGetCmd opt r := by
  unfold apiSpecTrace at h
  split at h
  · exact absurd h (by simp)
  · split at h
    · rcases List.mem_cons.mp h with h1 | h1
      · exact h1
      · exact List.mem_singleton.mp h1
    · exact List.mem_singleton.mp h

lemma api_heads : ∀ x ∈ API_RESOURCES, ¬ x.data.head? = some '/' := by decide

/-- Every subprocess succeeds but prints nothing. -/
def envEmptyOut : Env := fun _ _ => ⟨0, ""⟩

/-- C7 counterexample: when every `get` command succeeds with empty output,
every kind is skipped and no file is written — but no warning is logged
either (the log gains only the section header), contradicting the claim that
a kind yielding no output is skipped **with a warning log**.  The code warns
only on a non-zero exit. -/
theorem C7_counterexample :
    isOkRun (collect_api_resources envEmptyOut stR) = true ∧
    (stOfRun (collect_api_resources envEmptyOut stR)).files = [] ∧
    (stOfRun (collect_api_resources envEmptyOut stR)).log =
      [⟨LogLevel.info, "Collecting API resources:"⟩] := ⟨rfl, rfl, rfl⟩

/-- C7 (amended): under a deterministic environment, for a kind whose `get`
command exits non-zero the collector logs a warning naming the kind and the
captured output and writes no file for it, while every other (non-Routes)
kind whose command succeeds with non-empty output still gets its file with
its own content — the kinds are independent and the collector returns
normally.  A kind whose command succeeds with empty output is skipped without
any warning, and under `kubectl` the `Routes` kind is never queried and never
written. -/
theorem C7_api_resource_independence (env : Env) (k k1 : String)
    (hdet : ∀ i j c, env i c = env j c)
    (hk : k ∈ API_RESOURCES) (hkR : k ≠ "Routes")
    (hk1 : k1 ∈ API_RESOURCES) (hk1R : k1 ≠ "Routes")
    (hfail : (env 0 (kubeGetCmd optR k)).code ≠ 0)
    (hok : (env 0 (kubeGetCmd optR k1)).code = 0)
    (hne : (env 0 (kubeGetCmd optR k1)).out ≠ "") :
    isOkRun (collect_api_resources env stR) = true ∧
    (pjoin "/out/D" k1, (env 0 (kubeGetCmd optR k1)).out) ∈
      (stOfRun (collect_api_resources env stR)).files ∧
    pjoin "/out/D" k ∉ (stOfRun (collect_api_resources env stR)).files.map Prod.fst ∧
    (⟨LogLevel.warning, "Failed to get " ++ k ++ " resource: " ++
      (env 0 (kubeGetCmd optR k)).out⟩ : LogEntry) ∈
      (stOfRun (collect_api_resources env stR)).log ∧
    kubeGetCmd optR "Routes" ∉ (stOfRun (collect_api_resources env stR)).trace ∧
    pjoin "/out/D" "Routes" ∉
      (stOfRun (collect_api_resources env stR)).files.map Prod.fst := by
  obtain ⟨w1, _, _, _, hlog, htrace, hpaths, hmem⟩ :=
    collect_api_resources_det env hdet stR
  simp only [show stR.opt = optR from rfl, show stR.log = [] from rfl,
    show stR.files = [] from rfl, show stR.trace = [] from rfl,
    show optR.output_dir = "/out/D" from rfl] at hlog htrace hpaths hmem
  have hentry : apiSpecEntry env optR k1 = some (k1, some (env 0 (kubeGetCmd optR k1)).out) := by
    unfold apiSpecEntry
    rw [if_neg (by simp [optR, hk1R]), if_pos ⟨hok, hne⟩]
  refine ⟨w1, ?_, ?_, ?_, ?_, ?_⟩
  · exact hmem k1 (env 0 (kubeGetCmd optR k1)).out
      (List.mem_filterMap.mpr ⟨k1, hk1, hentry⟩)
      (fun x hx hxne heq => hxne
        (pjoin_inj_of_head (api_heads x hx) (api_heads k1 hk1) heq))
  · intro hq
    rcases List.mem_map.mp hq with ⟨q, hqmem, hqeq⟩
    rcases hpaths q hqmem with h1 | ⟨e, hem, hp⟩
    · exact absurd h1 (by simp)
    · rcases List.mem_filterMap.mp hem with ⟨r, hrm, hr⟩
      obtain ⟨he1, _, hcode, _, _⟩ := apiSpecEntry_eq_some hr
      have hek : e.1 = k :=
        pjoin_inj_of_head (api_heads e.1 (he1 ▸ hrm)) (api_heads k hk)
          (hp ▸ hqeq)
      rw [he1] at hek
      rw [hek] at hcode
      exact hfail hcode
  · rw [hlog]
    refine List.mem_append.mpr (Or.inr ?_)
    refine List.mem_flatten.mpr ⟨apiSpecLog env optR k, List.mem_map.mpr ⟨k, hk, rfl⟩, ?_⟩
    unfold apiSpecLog
    rw [if_neg (by simp [optR, hkR]), if_neg hfail]
    simp
  · rw [htrace]
    intro hmm
    simp only [stR, List.nil_append] at hmm
    rcases List.mem_flatten.mp hmm with ⟨l, hl, hcl⟩
    rcases List.mem_map.mp hl with ⟨r, hrm, rfl⟩
    have hcmd := apiSpecTrace_mem hcl
    have hr := kubeGetCmd_optR_inj hcmd
    rw [← hr] at hrm
    have : apiSpecTrace env optR "Routes" = [] := by
      unfold apiSpecTrace
      rw [if_pos (by simp [optR])]
    rw [← hr, this] at hcl
    exact absurd hcl (by simp)
  · intro hq
    rcases List.mem_map.mp hq with ⟨q, hqmem, hqeq⟩
    rcases hpaths q hqmem with h1 | ⟨e, hem, hp⟩
    · exact absurd h1 (by simp)
    · rcases List.mem_filterMap.mp hem with ⟨r, hrm, hr⟩
      obtain ⟨he1, _, _, _, hskip⟩ := apiSpecEntry_eq_some hr
      have hek : e.1 = "Routes" :=
        pjoin_inj_of_head (api_heads e.1 (he1 ▸ hrm)) (api_heads "Routes" (by decide))
          (hp ▸ hqeq)
      exact hskip ⟨by simp [optR], he1 ▸ hek⟩

/-- For the C7 witness: the `pods` kind succeeds with output `yaml`, every
other command fails with output `err`. -/
def envC7w : Env := fun _ c =>
  if c = kubeGetCmd optR "pods" then ⟨0, "yaml"⟩ else ⟨1, "err"⟩

/-- Witness for C7: with `pods` succeeding and `Deployment` failing, the
collector returns normally, writes the `pods` file, omits the `Deployment`
file, logs the `Deployment` warning, and never touches `Routes`. -/
theorem C7_api_resource_independence_witness :
    isOkRun (collect_api_resources envC7w stR) = true ∧
    (pjoin "/out/D" "pods", "yaml") ∈
      (stOfRun (collect_api_resources envC7w stR)).files ∧
    pjoin "/out/D" "Deployment" ∉
      (stOfRun (collect_api_resources envC7w stR)).files.map Prod.fst ∧
    (⟨LogLevel.warning, "Failed to get Deployment resource: err"⟩ : LogEntry) ∈
      (stOfRun (collect_api_resources envC7w stR)).log ∧
    kubeGetCmd optR "Routes" ∉ (stOfRun (collect_api_resources envC7w stR)).trace ∧
    pjoin "/out/D" "Routes" ∉
      (stOfRun (collect_api_resources envC7w stR)).files.map Prod.fst :=
  C7_api_resource_independence envC7w "Deployment" "pods" (fun i j c => rfl)
    (by decide) (by decide) (by decide) (by decide) (by decide) (by decide) (by decide)

/-- The file paths any run with zero discovered pods can ever write, for the
concrete session of `stW`. -/
def c8Paths : List String :=
  ["/out/D/version.info", "/out/D/nodes.info", "/out/D/namespace.info", "/out/D/events",
   "/out/D/pvc.list", "/out/D/configmap.list", "/out/D/pods", "/out/D/ReplicaSet",
   "/out/D/Deployment", "/out/D/Services", "/out/D/Routes", "/out/D/Ingress",
   "/out/D/NetworkPolicies", "/out/D/pvc", "/out/D/configmap", "/out/D/pgreplicas",
   "/out/D/pgclusters", "/out/D/pgpolicies", "/out/D/pgtasks"]

lemma api_path_mem : ∀ r ∈ API_RESOURCES, pjoin "/out/D" r ∈ c8Paths := by decide

lemma c8Paths_not_under : ∀ p ∈ c8Paths,
    ¬ (("/out/D/pod_logs/").data <+: p.data) ∧
    ¬ (("/out/D/pg_pod_details/").data <+: p.data) := by
  decide

/-- The post-state facts claimed by C8, as a predicate on a run result. -/
def c8Post (r : Except (String × St) St) : Prop :=
  isOkRun r = true ∧
  "/out/D/pod_logs" ∈ (stOfRun r).dirs ∧
  "/out/D/pg_pod_details" ∈ (stOfRun r).dirs ∧
  (∀ q ∈ (stOfRun r).files,
    (∀ t, q.1 ≠ "/out/D/pod_logs/" ++ t) ∧
    (∀ t, q.1 ≠ "/out/D/pg_pod_details/" ++ t)) ∧
  ("/out/D.tar.gz", "D") ∈ (stOfRun r).archives

/-- C8: with pod discovery and PG pod discovery both succeeding with empty
output (zero pods), the run completes: the `pod_logs` and `pg_pod_details`
directories are created, no file is ever written beneath either of them, and
the archive is produced. -/
theorem C8_empty_pods_run_completes (env : Env) (σ : Option Nat)
    (hdet : ∀ (i j : Nat) (c : String), env i c = env j c)
    (hpods : env 0 (podsCmd optR) = ⟨0, ""⟩)
    (hpg : env 0 (pgPodsCmd optR) = ⟨0, ""⟩) :
    isOkRun (runBody env σ "/s" stW) = true ∧
    "/out/D/pod_logs" ∈ (stOfRun (runBody env σ "/s" stW)).dirs ∧
    "/out/D/pg_pod_details" ∈ (stOfRun (runBody env σ "/s" stW)).dirs ∧
    (∀ q ∈ (stOfRun (runBody env σ "/s" stW)).files,
      (∀ t, q.1 ≠ "/out/D/pod_logs/" ++ t) ∧
      (∀ t, q.1 ≠ "/out/D/pg_pod_details/" ++ t)) ∧
    ("/out/D.tar.gz", "D") ∈ (stOfRun (runBody env σ "/s" stW)).archives := by
  show c8Post (runBody env σ "/s" stW)
  have hT1o : (runStartSt "/s" stW).opt = optR := rfl
  have hT1f : (runStartSt "/s" stW).files = [] := rfl
  have hT1d : (runStartSt "/s" stW).dirs = ["/out/D"] := rfl
  have hT1a : (runStartSt "/s" stW).archives = [] := rfl
  obtain ⟨o2, d2, a2, f2⟩ := collect_kube_version_frame env (runStartSt "/s" stW)
  set s2 := collect_kube_version env (runStartSt "/s" stW) with hs2
  have hF2 : ∀ q ∈ s2.files, q.1 ∈ c8Paths := by
    intro q hq
    rcases f2 q hq with h | h
    · rw [hT1f] at h
      exact absurd h (by simp)
    · rw [h, hT1o]
      decide
  obtain ⟨o3, d3, a3, f3⟩ := collect_node_info_frame env s2
  set s3 := collect_node_info env s2 with hs3
  have hF3 : ∀ q ∈ s3.files, q.1 ∈ c8Paths := by
    intro q hq
    rcases f3 q hq with h | h
    · exact hF2 q h
    · rw [h, o2, hT1o]
      decide
  obtain ⟨o4, d4, a4, f4⟩ := collect_namespace_info_frame env s3
  set s4 := collect_namespace_info env s3 with hs4
  have hF4 : ∀ q ∈ s4.files, q.1 ∈ c8Paths := by
    intro q hq
    rcases f4 q hq with h | h
    · exact hF3 q h
    · rw [h, o3, o2, hT1o]
      decide
  obtain ⟨o5, d5, a5, f5⟩ := collect_events_frame env s4
  set s5 := collect_events env s4 with hs5
  have hF5 : ∀ q ∈ s5.files, q.1 ∈ c8Paths := by
    intro q hq
    rcases f5 q hq with h | h
    · exact hF4 q h
    · rw [h, o4, o3, o2, hT1o]
      decide
  obtain ⟨o6, d6, a6, f6⟩ := collect_pvc_list_frame env s5
  set s6 := collect_pvc_list env s5 with hs6
  have hF6 : ∀ q ∈ s6.files, q.1 ∈ c8Paths := by
    intro q hq
    rcases f6 q hq with h | h
    · exact hF5 q h
    · rw [h, o5, o4, o3, o2, hT1o]
      decide
  obtain ⟨o7, d7, a7, f7⟩ := collect_configmap_list_frame env s6
  set s7 := collect_configmap_list env s6 with hs7
  have ho7 : s7.opt = optR := by rw [o7, o6, o5, o4, o3, o2, hT1o]
  have hd7 : s7.dirs = ["/out/D"] := by rw [d7, d6, d5, d4, d3, d2, hT1d]
  have ha7 : s7.archives = [] := by rw [a7, a6, a5, a4, a3, a2, hT1a]
  have hF7 : ∀ q ∈ s7.files, q.1 ∈ c8Paths := by
    intro q hq
    rcases f7 q hq with h | h
    · exact hF6 q h
    · rw [h, o6, o5, o4, o3, o2, hT1o]
      decide
  obtain ⟨aok, aopt, adirs, aarch, _, _, apaths, _⟩ :=
    collect_api_resources_det env hdet s7
  have hgoal : runBody env σ "/s" stW = runStageApi env σ s7 := rfl
  rw [hgoal]
  unfold runStageApi
  cases hA : collect_api_resources env s7 with
  | error e =>
    rw [hA] at aok
    simp [isOkRun] at aok
  | ok s8 =>
    rw [hA] at aopt adirs aarch apaths
    have hsts : stOfRun (Except.ok s8 : Except (String × St) St) = s8 := rfl
    rw [hsts] at aopt adirs aarch apaths
    have ho8 : s8.opt = optR := by rw [aopt, ho7]
    have hd8 : s8.dirs = ["/out/D"] := by rw [adirs, hd7]
    have ha8 : s8.archives = [] := by rw [aarch, ha7]
    have hF8 : ∀ q ∈ s8.files, q.1 ∈ c8Paths := by
      intro q hq
      rcases apaths q hq with h | ⟨e, hem, hp⟩
      · exact hF7 q h
      · rcases List.mem_filterMap.mp hem with ⟨r, hrm, hr⟩
        have he1 : e.1 ∈ API_RESOURCES := by
          rw [(apiSpecEntry_eq_some hr).1]
          exact hrm
        rw [hp, ho7, show optR.output_dir = "/out/D" from rfl]
        exact api_path_mem e.1 he1
    have hv9 : env s8.counter (pgPodsCmd s8.opt) = ⟨0, ""⟩ := by
      rw [ho8]
      exact (hdet s8.counter 0 (pgPodsCmd optR)).trans hpg
    obtain ⟨gopt, gfiles, gdirs, garch, _⟩ := collect_pg_logs_empty env s8 hv9
    set s9 := collect_pg_logs env s8 with hs9
    have ho9 : s9.opt = optR := by rw [gopt, ho8]
    have hv10 : env s9.counter (podsCmd s9.opt) = ⟨0, ""⟩ := by
      rw [ho9]
      exact (hdet s9.counter 0 (podsCmd optR)).trans hpods
    obtain ⟨pok, popt, pfiles, pdirs, parch, _⟩ := collect_pods_logs_empty env s9 hv10
    show c8Post (runStagePodLogs env σ s9)
    unfold runStagePodLogs
    cases hP : collect_pods_logs env s9 with
    | error e =>
      rw [hP] at pok
      simp [isOkRun] at pok
    | ok s10 =>
      rw [hP] at popt pfiles pdirs parch
      have hstp : stOfRun (Except.ok s10 : Except (String × St) St) = s10 := rfl
      rw [hstp] at popt pfiles pdirs parch
      have ho10 : s10.opt = optR := by rw [popt, ho9]
      have hv11 : env s10.counter (pgPodsCmd s10.opt) = ⟨0, ""⟩ := by
        rw [ho10]
        exact (hdet s10.counter 0 (pgPodsCmd optR)).trans hpg
      obtain ⟨dok, dopt, dfiles, ddirs, darch, _⟩ :=
        collect_pg_pod_details_empty env s10 hv11
      show c8Post (runStageDetails env σ s10)
      unfold runStageDetails
      cases hD : collect_pg_pod_details env s10 with
      | error e =>
        rw [hD] at dok
        simp [isOkRun] at dok
      | ok s11 =>
        rw [hD] at dopt dfiles ddirs darch
        have hstd : stOfRun (Except.ok s11 : Except (String × St) St) = s11 := rfl
        rw [hstd] at dopt dfiles ddirs darch
        have ho11 : s11.opt = optR := by rw [dopt, ho10]
        obtain ⟨zopt, zfiles, zdirs, zarch⟩ := archive_files_frame σ s11
        show c8Post (Except.ok (archive_files σ s11))
        unfold c8Post
        have hfin : stOfRun (Except.ok (archive_files σ s11) :
            Except (String × St) St) = archive_files σ s11 := rfl
        rw [hfin]
        refine ⟨rfl, ?_, ?_, ?_, ?_⟩
        · rw [zdirs, ddirs, ho10, pdirs, ho9, gdirs, ho8, hd8]
          rw [show pjoin optR.output_dir "pg_logs" = "/out/D/pg_logs" from rfl,
            show pjoin optR.output_dir "pod_logs" = "/out/D/pod_logs" from rfl,
            show pjoin optR.output_dir "pg_pod_details" = "/out/D/pg_pod_details" from rfl]
          simp
        · rw [zdirs, ddirs, ho10, pdirs, ho9, gdirs, ho8, hd8]
          rw [show pjoin optR.output_dir "pg_logs" = "/out/D/pg_logs" from rfl,
            show pjoin optR.output_dir "pod_logs" = "/out/D/pod_logs" from rfl,
            show pjoin optR.output_dir "pg_pod_details" = "/out/D/pg_pod_details" from rfl]
          simp
        · intro q hq
          rw [zfiles, dfiles, pfiles, gfiles] at hq
          have hqp := hF8 q hq
          obtain ⟨hnp1, hnp2⟩ := c8Paths_not_under q.1 hqp
          exact ⟨fun t => ne_append_of_not_prefix hnp1 t,
            fun t => ne_append_of_not_prefix hnp2 t⟩
        · rw [zarch, darch, parch, garch, ha8, ho11]
          rw [show (optR.output_dir ++ ".tar.gz" : String) = "/out/D.tar.gz" from rfl,
            show optR.dir_name = "D" from rfl]
          simp

/-- Environment for the C8 witness: both pod discoveries report zero pods,
everything else succeeds with output `x`. -/
def envC8w : Env := fun _ c =>
  if c = podsCmd optR then ⟨0, ""⟩
  else if c = pgPodsCmd optR then ⟨0, ""⟩
  else ⟨0, "x"⟩

/-- Witness for C8 on a concrete zero-pod environment. -/
theorem C8_empty_pods_run_completes_witness :
    isOkRun (runBody envC8w none "/s" stW) = true ∧
    "/out/D/pod_logs" ∈ (stOfRun (runBody envC8w none "/s" stW)).dirs ∧
    "/out/D/pg_pod_details" ∈ (stOfRun (runBody envC8w none "/s" stW)).dirs ∧
    (∀ q ∈ (stOfRun (runBody envC8w none "/s" stW)).files,
      (∀ t, q.1 ≠ "/out/D/pod_logs/" ++ t) ∧
      (∀ t, q.1 ≠ "/out/D/pg_pod_details/" ++ t)) ∧
    ("/out/D.tar.gz", "D") ∈ (stOfRun (runBody envC8w none "/s" stW)).archives :=
  C8_empty_pods_run_completes envC8w none (fun i j c => rfl) (by decide) (by decide)

/-- C9 counterexample: after CLI resolution completes, `run()` reassigns
`OPT.output_dir` (joining the run directory name onto the output root), so the
session configuration observed at the end of the run differs from the value it
had right after startup — it is not "never mutated after CLI resolution". -/
theorem C9_counterexample :
    (stOfRun (runBody envEmptyOut none "/s" stW)).opt ≠ stW.opt ∧
    (stOfRun (runBody envEmptyOut none "/s" stW)).opt.output_dir = "/out/D" ∧
    stW.opt.output_dir = "/out" := by
  simp only [runBody_opt]
  decide

/-- C9 (amended): the session configuration is written at startup and then
mutated exactly once more — at the top of `run()`, after CLI resolution,
`OPT.output_dir` is reassigned to include the run directory name; no other
field changes there, and no collector or later step writes to `OPT` at all:
whatever the environment does and however the run ends, the final `OPT`
equals the prologue value. -/
theorem C9_options_single_mutation (env : Env) (σ : Option Nat) (a : String) (s : St) :
    (stOfRun (runBody env σ a s)).opt = runPrologueOpt a s.opt ∧
    (runPrologueOpt a s.opt).«namespace» = s.opt.«namespace» ∧
    (runPrologueOpt a s.opt).kube_cli = s.opt.kube_cli ∧
    (runPrologueOpt a s.opt).dir_name = s.opt.dir_name := by
  refine ⟨runBody_opt env σ a s, ?_, ?_, ?_⟩ <;> unfold runPrologueOpt <;> split <;> rfl

lemma write_resources_last (acc : List (String × Option String)) :
    ∀ (s2 : St) (r o : String), (∀ e ∈ acc, e.2 ≠ none) →
      (pjoin s2.opt.output_dir r, o) ∈
        (stOfRun (write_resources (acc ++ [(r, some o)]) s2)).files := by
  induction acc with
  | nil =>
    intro s2 r o _
    exact mem_setFile_self _ _ _
  | cons e rest ih =>
    intro s2 r o hv
    rcases e with ⟨a, v⟩
    cases v with
    | none => exact absurd rfl (hv (a, none) (List.mem_cons_self _ _))
    | some w =>
      simp only [List.cons_append, write_resources]
      exact ih _ r o (fun x hx => hv x (List.mem_cons_of_mem _ hx))

/-- C10: for a kind that is not skipped, whose `get` command succeeds with
non-empty output on its first invocation (and succeeds again on the second),
the loop body of `collect_api_resources` runs the same `get` command twice,
records the value of the **second** invocation, and the write phase then
writes exactly that second output to the file named after the kind. -/
theorem C10_api_get_runs_twice (env : Env) (acc : List (String × Option String))
    (s : St) (r : String)
    (hskip : ¬(s.opt.kube_cli = "kubectl" ∧ r = "Routes"))
    (h1 : (env s.counter (kubeGetCmd s.opt r)).code = 0)
    (hne : (env s.counter (kubeGetCmd s.opt r)).out ≠ "")
    (h2 : (env (s.counter + 1) (kubeGetCmd s.opt r)).code = 0) :
    (api_step env acc s r).2.trace =
      s.trace ++ [kubeGetCmd s.opt r, kubeGetCmd s.opt r] ∧
    (api_step env acc s r).1 =
      acc ++ [(r, some (env (s.counter + 1) (kubeGetCmd s.opt r)).out)] ∧
    (∀ s2 : St, (∀ e ∈ acc, e.2 ≠ none) →
      isOkRun (write_resources (api_step env acc s r).1 s2) = true ∧
      (pjoin s2.opt.output_dir r, (env (s.counter + 1) (kubeGetCmd s.opt r)).out) ∈
        (stOfRun (write_resources (api_step env acc s r).1 s2)).files) := by
  have hstep : api_step env acc s r =
      (acc ++ [(r, some (env (s.counter + 1) (kubeGetCmd s.opt r)).out)],
        logInfo { s with
          counter := s.counter + 1 + 1
          trace := s.trace ++ [kubeGetCmd s.opt r, kubeGetCmd s.opt r] } ("  + " ++ r)) := by
    unfold api_step
    rw [if_neg hskip, run_kube_get_ok env r s h1]
    simp only [hne, if_pos hne]
    rw [run_kube_get_ok env r _ (by simpa using h2)]
    simp [List.append_assoc]
  refine ⟨?_, ?_, ?_⟩
  · rw [hstep]
    simp [logInfo]
  · rw [hstep]
  · intro s2 hacc
    rw [hstep]
    have hall : ∀ e ∈ acc ++ [(r, some (env (s.counter + 1) (kubeGetCmd s.opt r)).out)],
        e.2 ≠ none := by
      intro e he
      rcases List.mem_append.mp he with h | h
      · exact hacc e h
      · rcases List.mem_singleton.mp h with rfl
        simp
    refine ⟨(write_resources_ok_of_values _ hall s2).1, ?_⟩
    exact write_resources_last acc s2 r _ hacc

/-- Invocation-dependent environment for the C10 witness: every command
answers `A` on the first invocation of the run and `B` afterwards. -/
def envC10 : Env := fun i _ => if i = 0 then ⟨0, "A"⟩ else ⟨0, "B"⟩

/-- Witness for C10: the `pods` get command runs twice and the recorded and
written content is the second answer `B`, not the first answer `A`. -/
theorem C10_api_get_runs_twice_witness :
    (api_step envC10 [] stR "pods").2.trace =
      stR.trace ++ [kubeGetCmd stR.opt "pods", kubeGetCmd stR.opt "pods"] ∧
    (api_step envC10 [] stR "pods").1 = [] ++ [("pods", some "B")] ∧
    (∀ s2 : St, (∀ e ∈ ([] : List (String × Option String)), e.2 ≠ none) →
      isOkRun (write_resources (api_step envC10 [] stR "pods").1 s2) = true ∧
      (pjoin s2.opt.output_dir "pods", "B") ∈
        (stOfRun (write_resources (api_step envC10 [] stR "pods").1 s2)).files) :=
  C10_api_get_runs_twice envC10 [] stR "pods" (by decide) (by decide) (by decide)
    (by decide)

end CrunchySupportDump
